import Mathlib

/-! Verification development for `pdfium_jni.cpp`

A shallow embedding of the JNI bridge `pdfium/src/main/cpp/pdfium_jni.cpp`.

Conventions of the embedding:

* The external PDF engine (PDFium) is a black box.  Every call made to it is
  appended to the trace `World.calls`; what it answers is supplied by the
  structure `Engine` or by an explicit argument.
* A Java exception raised through `jniThrowException` is appended to
  `World.thrown`, in raising order.
* C `int`/`jint`/`jlong` values are `Int`; pointers and unsigned values are
  `Nat`, the null pointer being `0`.  The lifecycle counter is an `Int`:
  `runGuard_count_bound` shows that its absolute value never exceeds the
  number of guard calls made, so the machine `int` agrees with it for every
  run of fewer than `2 ^ 31` calls.  Where a range of indices is subtracted
  (`nativeLoadPages`) the 32-bit arithmetic is explicit (`wrapInt32`), and a
  call that overruns the stack has no result (`none`).
* Logging (`LOGI`, `LOGE`, `LOGD`) changes no modelled state and is left out.
-/

namespace PdfiumJni

/-! ## Data model -/

/-- Pixel layouts of an engine bitmap that the bridge asks for
(`FPDFBitmap_BGR`, three bytes per pixel; `FPDFBitmap_BGRA`, four). -/
inductive FPDFBitmapFormat
  | FPDFBitmap_BGR
  | FPDFBitmap_BGRA
  deriving DecidableEq, Repr

/-- The pixel buffers the bridge hands to the engine: the `malloc`ed scratch
buffer `tmp`, the locked pixels `addr` of the Java bitmap, and the locked bits
of a native window. -/
inductive BufferId
  | scratch
  | bitmapPixels
  | windowBits
  deriving DecidableEq, Repr

/-- A byte-addressed buffer: the byte stored at each offset from its base. -/
abbrev Memory := Nat → Nat

/-- An engine bitmap as `FPDFBitmap_CreateEx` describes it: size in pixels,
pixel layout, the external buffer it draws into and the row stride in bytes. -/
structure FPDF_BITMAP where
  width : Int
  height : Int
  format : FPDFBitmapFormat
  buffer : BufferId
  stride : Int
  deriving DecidableEq, Repr

/-- Calls to the external engine, with the arguments the bridge passes, and
the notification `onAnnotationAdded` sent to the Java caller, which is
recorded in the same trace so that its place among the engine calls is
visible. -/
inductive EngineCall
  | FPDF_InitLibrary
  | FPDF_DestroyLibrary
  | FPDF_LoadCustomDocument (fileLen : Nat) (fd : Int) (password : Option String)
  | FPDF_LoadMemDocument (data : List Nat) (size : Int) (password : Option String)
  | FPDF_CloseDocument (document : Nat)
  | FPDF_GetLastError
  | FPDF_LoadPage (document : Nat) (pageIndex : Int)
  | FPDF_ClosePage (page : Int)
  | FPDFBitmap_CreateEx (width height : Int) (format : FPDFBitmapFormat)
      (buffer : BufferId) (stride : Int)
  | FPDFBitmap_FillRect (left top width height : Int) (color : Nat)
  | FPDF_RenderPageBitmap (page : Nat) (startX startY sizeX sizeY : Int)
      (rotate : Int) (flags : Nat)
  | FPDFPage_CreateAnnot (page : Int) (subtype : Nat)
  | FPDFAnnot_SetRect (annot : Nat) (left top right bottom : Int)
  | FPDFAnnot_SetColor (annot : Nat) (colorType : Nat) (R G B A : Nat)
  | FPDFAnnot_SetStringValue (annot : Nat) (key : String) (value : List Nat)
  | FPDF_SaveAsCopy (document : Nat) (flags : Nat)
  | onAnnotationAdded (pageIndex : Int) (pagePtr : Int)
  | FPDFText_FindStart (textPage : Int) (findwhat : List Nat) (flags : Nat) (startIndex : Int)
  deriving DecidableEq, Repr

/-- A Java exception raised by `jniThrowException(env, className, message)`. -/
structure JavaThrow where
  className : String
  message : String
  deriving DecidableEq, Repr

/-- The process state the bridge acts on: the static `sLibraryReferenceCount`,
whether the engine is currently initialised, the trace of engine calls and the
exceptions raised so far. -/
structure World where
  sLibraryReferenceCount : Int
  libraryInitialized : Bool
  calls : List EngineCall
  thrown : List JavaThrow
  deriving DecidableEq, Repr

/-- Process start: `static int sLibraryReferenceCount = 0`, engine not
initialised, nothing called, nothing thrown. -/
def World.initial : World :=
  { sLibraryReferenceCount := 0, libraryInitialized := false, calls := [], thrown := [] }

/-- Record one engine call in the trace. -/
def World.call (w : World) (c : EngineCall) : World :=
  { w with calls := w.calls ++ [c] }

/-! ## Engine lifecycle guard -/

/-- Engine entry point `FPDF_InitLibrary()`: the engine becomes initialised. -/
def FPDF_InitLibrary (w : World) : World :=
  { w.call EngineCall.FPDF_InitLibrary with libraryInitialized := true }

/-- Engine entry point `FPDF_DestroyLibrary()`: the engine is torn down. -/
def FPDF_DestroyLibrary (w : World) : World :=
  { w.call EngineCall.FPDF_DestroyLibrary with libraryInitialized := false }

/-- Source `initLibraryIfNeed`: under the lock, initialise the engine when the
counter is `0`, then increment the counter. -/
def initLibraryIfNeed (w : World) : World :=
  let w1 := if w.sLibraryReferenceCount = 0 then FPDF_InitLibrary w else w
  { w1 with sLibraryReferenceCount := w1.sLibraryReferenceCount + 1 }

/-- Source `destroyLibraryIfNeed`: under the lock, decrement the counter, then
tear the engine down when the counter has become `0`. -/
def destroyLibraryIfNeed (w : World) : World :=
  let w1 := { w with sLibraryReferenceCount := w.sLibraryReferenceCount - 1 }
  if w1.sLibraryReferenceCount = 0 then FPDF_DestroyLibrary w1 else w1

/-- The two operations of the guard. -/
inductive GuardOp
  | acquire
  | release
  deriving DecidableEq, Repr

/-- One guard call. -/
def guardStep (w : World) : GuardOp → World
  | GuardOp.acquire => initLibraryIfNeed w
  | GuardOp.release => destroyLibraryIfNeed w

/-- A finite sequence of guard calls, executed left to right. -/
def runGuard (ops : List GuardOp) (w : World) : World :=
  ops.foldl guardStep w

/-! ## Exceptions and the error classifier -/

/-- Source `jniThrowException`: raise the Java exception `className` with
`message`.  The exception classes belong to the Java side of the repository
and are taken to exist, so `FindClass` and `ThrowNew` succeed. -/
def jniThrowException (className message : String) (w : World) : World :=
  { w with thrown := w.thrown ++ [{ className := className, message := message }] }

/-- Modelled from the spec: engine error code "unknown" of the engine header
`fpdfview.h`, which is not among the sources. -/
def FPDF_ERR_UNKNOWN : Int := 1

/-- Modelled from the spec: engine error code "file not found" of `fpdfview.h`. -/
def FPDF_ERR_FILE : Int := 2

/-- Modelled from the spec: engine error code "invalid format" of `fpdfview.h`. -/
def FPDF_ERR_FORMAT : Int := 3

/-- Modelled from the spec: engine error code "incorrect password" of `fpdfview.h`. -/
def FPDF_ERR_PASSWORD : Int := 4

/-- Modelled from the spec: engine error code "unsupported security" of `fpdfview.h`. -/
def FPDF_ERR_SECURITY : Int := 5

/-- Modelled from the spec: engine error code "page not found" of `fpdfview.h`. -/
def FPDF_ERR_PAGE : Int := 6

/-- Source `throwPdfiumException`: the `switch` over the engine error code. -/
def throwPdfiumException (errorNum : Int) (w : World) : World :=
  if errorNum = FPDF_ERR_UNKNOWN then
    jniThrowException "com/harissk/pdfium/exception/UnknownException"
      "An unexpected error occurred while processing the PDF document" w
  else if errorNum = FPDF_ERR_FILE then
    jniThrowException "com/harissk/pdfium/exception/FileNotFoundException"
      "Unable to find the specified PDF file" w
  else if errorNum = FPDF_ERR_FORMAT then
    jniThrowException "com/harissk/pdfium/exception/InvalidFormatException"
      "The provided file is not a valid PDF document" w
  else if errorNum = FPDF_ERR_PASSWORD then
    jniThrowException "com/harissk/pdfium/exception/IncorrectPasswordException"
      "The provided password is incorrect" w
  else if errorNum = FPDF_ERR_SECURITY then
    jniThrowException "com/harissk/pdfium/exception/UnsupportedSecurityException"
      "The PDF document uses an unsupported security scheme" w
  else if errorNum = FPDF_ERR_PAGE then
    jniThrowException "com/harissk/pdfium/exception/PageNotFoundException"
      "The requested page was not found within the PDF document" w
  else if errorNum = 7 then
    jniThrowException "com/harissk/pdfium/exception/FileNotFoundException" "File is Empty" w
  else
    jniThrowException "com/harissk/pdfium/exception/UnknownException" "No Error" w

/-- Source `throwPdfiumException1`: an `UnknownException` with a free message. -/
def throwPdfiumException1 (message : String) (w : World) : World :=
  jniThrowException "com/harissk/pdfium/exception/UnknownException" message w

/-! ## Documents and pages -/

/-- What the external engine answers.  `FPDF_LoadCustomDocument`,
`FPDF_LoadMemDocument` and `FPDF_LoadPage` answer a pointer, `0` being `NULL`;
the answer of `FPDF_LoadPage` may depend on the calls made before it (its
first argument), so that a page can load at one moment and not at another;
`FPDF_GetLastError` is the code the engine reports when asked;
`FPDF_RenderPageBitmap bitmap page startX startY sizeX sizeY rotate flags` is
what the rasterizer makes of the content of the bitmap's buffer;
`FPDFPage_CreateAnnot page subtype` is the annotation handle the engine gives
and `FPDF_SaveAsCopy document flags` whether the save succeeds. -/
structure Engine where
  FPDF_LoadCustomDocument : Nat → Int → Option String → Nat
  FPDF_LoadMemDocument : List Nat → Int → Option String → Nat
  FPDF_GetLastError : Int
  FPDF_LoadPage : List EngineCall → Nat → Int → Nat
  FPDF_RenderPageBitmap : FPDF_BITMAP → Nat → Int → Int → Int → Int → Int → Nat →
    Memory → Memory
  FPDFPage_CreateAnnot : Int → Nat → Nat
  FPDF_SaveAsCopy : Nat → Nat → Bool

/-- Source `class DocumentFile`: the object behind a document handle, holding
the engine document `pdfDocument` (`0` for `NULL`). -/
structure DocumentFile where
  pdfDocument : Nat
  deriving DecidableEq, Repr

/-- A `jlong` returned by an open call: either the address of a live
`DocumentFile` (identified with the object) or a plain number. -/
inductive JLong
  | docFile (d : DocumentFile)
  | value (n : Int)
  deriving DecidableEq, Repr

/-- Constructor `DocumentFile() { initLibraryIfNeed(); }`, with the member
initialiser `pdfDocument = NULL`. -/
def DocumentFile.new (w : World) : DocumentFile × World :=
  ({ pdfDocument := 0 }, initLibraryIfNeed w)

/-- Destructor `DocumentFile::~DocumentFile`: close the engine document when
there is one, then release the guard. -/
def DocumentFile.delete (d : DocumentFile) (w : World) : World :=
  let w1 := if d.pdfDocument ≠ 0 then w.call (EngineCall.FPDF_CloseDocument d.pdfDocument) else w
  destroyLibraryIfNeed w1

/-- Source `getFileSize`: `fstat fd` is the `st_size` the system reports, or
`none` when `fstat` fails, in which case the size is `0`. -/
def getFileSize (fstat : Int → Option Nat) (fd : Int) : Nat :=
  match fstat fd with
  | some st_size => st_size
  | none => 0

/-- Source `nativeOpenDocument`.  `password` is `none` for a `NULL` string. -/
def nativeOpenDocument (E : Engine) (fstat : Int → Option Nat) (fd : Int)
    (password : Option String) (w : World) : JLong × World :=
  let fileLength := getFileSize fstat fd
  if fileLength ≤ 0 then
    (JLong.value FPDF_ERR_FILE, jniThrowException "java/io/IOException" "Empty PDF file" w)
  else
    let (docFile, w1) := DocumentFile.new w
    let w2 := w1.call (EngineCall.FPDF_LoadCustomDocument fileLength fd password)
    let document := E.FPDF_LoadCustomDocument fileLength fd password
    if document = 0 then
      let w3 := DocumentFile.delete docFile w2
      let w4 := w3.call EngineCall.FPDF_GetLastError
      (JLong.value (-1), throwPdfiumException E.FPDF_GetLastError w4)
    else
      (JLong.docFile { docFile with pdfDocument := document }, w2)

/-- Source `nativeOpenMemDocument`.  `data` is the content of the Java byte
array; the engine is given a copy of it and its length. -/
def nativeOpenMemDocument (E : Engine) (data : List Nat) (password : Option String)
    (w : World) : JLong × World :=
  let (docFile, w1) := DocumentFile.new w
  let size : Int := data.length
  let cDataCopy := data
  let w2 := w1.call (EngineCall.FPDF_LoadMemDocument cDataCopy size password)
  let document := E.FPDF_LoadMemDocument cDataCopy size password
  if document = 0 then
    let w3 := DocumentFile.delete docFile w2
    let w4 := w3.call EngineCall.FPDF_GetLastError
    (JLong.value (-1), throwPdfiumException E.FPDF_GetLastError w4)
  else
    (JLong.docFile { docFile with pdfDocument := document }, w2)

/-- Source `nativeCloseDocument`: `delete` of the `DocumentFile` behind the
handle.  `delete` of the null pointer does nothing; any other number is not a
pointer to a `DocumentFile` and the call has no defined result. -/
def nativeCloseDocument (documentPtr : JLong) (w : World) : Option World :=
  match documentPtr with
  | JLong.docFile d => some (DocumentFile.delete d w)
  | JLong.value n => if n = 0 then some w else none

/-- Source `loadPageInternal`.  `doc` is `none` for a `NULL` pointer.  Every
`throw` inside the `try` lands in the `catch`, which raises an
`UnknownException` and returns `-1`. -/
def loadPageInternal (E : Engine) (doc : Option DocumentFile) (pageIndex : Int)
    (w : World) : Int × World :=
  match doc with
  | none => (-1, throwPdfiumException1 "cannot load page" w)
  | some d =>
    let pdfDoc := d.pdfDocument
    if pdfDoc ≠ 0 then
      let w1 := w.call (EngineCall.FPDF_LoadPage pdfDoc pageIndex)
      let page := E.FPDF_LoadPage w.calls pdfDoc pageIndex
      if page = 0 then
        (-1, throwPdfiumException1 "cannot load page" w1)
      else
        ((page : Int), w1)
    else
      (-1, throwPdfiumException1 "cannot load page" w)

/-- Source `closePageInternal`. -/
def closePageInternal (pagePtr : Int) (w : World) : World :=
  w.call (EngineCall.FPDF_ClosePage pagePtr)

/-- Source `nativeLoadPage`. -/
def nativeLoadPage (E : Engine) (docPtr : Option DocumentFile) (pageIndex : Int)
    (w : World) : Int × World :=
  match docPtr with
  | none => (-1, throwPdfiumException FPDF_ERR_FILE w)
  | some doc =>
    let (pagePtr, w1) := loadPageInternal E (some doc) pageIndex w
    if pagePtr = -1 then
      let w2 := w1.call EngineCall.FPDF_GetLastError
      (-1, throwPdfiumException E.FPDF_GetLastError w2)
    else
      (pagePtr, w1)

/-- The balance property of one open call that started in `w` and gave `r`:
a failed open (a plain number comes back) has raised exactly one exception and
left the counter at its value in `w`; a successful open (a `DocumentFile` with
an engine document comes back) has raised nothing, and closing that document
brings the counter back to its value in `w`. -/
def OpenBalanced (w : World) (r : JLong × World) : Prop :=
  match r.1 with
  | JLong.value _ =>
    r.2.sLibraryReferenceCount = w.sLibraryReferenceCount ∧
      ∃ t, r.2.thrown = w.thrown ++ [t]
  | JLong.docFile d =>
    d.pdfDocument ≠ 0 ∧ r.2.thrown = w.thrown ∧
      ∃ w2, nativeCloseDocument (JLong.docFile d) r.2 = some w2 ∧
        w2.sLibraryReferenceCount = w.sLibraryReferenceCount

/-! ## RGB565 conversion -/

/-- Source `rgb_to_565`.  The channel values are `unsigned char`, the
arithmetic is done in `int`, the three intermediate results are stored in
`unsigned char` and the result in `uint16_t`. -/
def rgb_to_565 (R8 G8 B8 : Nat) : Nat :=
  let R5 := ((R8 * 249 + 1014) >>> 11) % 256
  let G6 := ((G8 * 253 + 505) >>> 10) % 256
  let B5 := ((B8 * 249 + 1014) >>> 11) % 256
  ((R5 <<< 11) ||| (G6 <<< 5) ||| B5) % 65536

/-- Red field of a 16-bit RGB565 value: the top five bits. -/
def red565 (v : Nat) : Nat := v >>> 11

/-- Green field of a 16-bit RGB565 value: the middle six bits. -/
def green565 (v : Nat) : Nat := (v >>> 5) % 64

/-- Blue field of a 16-bit RGB565 value: the low five bits. -/
def blue565 (v : Nat) : Nat := v % 32

/-- Store one byte. -/
def writeByte (m : Memory) (a v : Nat) : Memory :=
  fun i => if i = a then v else m i

/-- Store a `uint16_t` at byte offset `a`, low byte first (every Android ABI is
little-endian). -/
def writeU16 (m : Memory) (a v : Nat) : Memory :=
  writeByte (writeByte m a (v % 256)) (a + 1) (v / 256 % 256)

/-- Load the `uint16_t` at byte offset `a`. -/
def readU16 (m : Memory) (a : Nat) : Nat :=
  m a + 256 * m (a + 1)

/-- Pixel formats of `android/bitmap.h`. -/
inductive AndroidBitmapFormat
  | ANDROID_BITMAP_FORMAT_NONE
  | ANDROID_BITMAP_FORMAT_RGBA_8888
  | ANDROID_BITMAP_FORMAT_RGB_565
  | ANDROID_BITMAP_FORMAT_RGBA_4444
  | ANDROID_BITMAP_FORMAT_A_8
  | ANDROID_BITMAP_FORMAT_RGBA_F16
  | ANDROID_BITMAP_FORMAT_RGBA_1010102
  deriving DecidableEq, Repr

/-- The fields of `AndroidBitmapInfo` that the bridge reads (all `uint32_t`
but the format). -/
structure AndroidBitmapInfo where
  width : Nat
  height : Nat
  stride : Nat
  format : AndroidBitmapFormat
  deriving DecidableEq, Repr

/-- The inner loop of `rgbBitmapTo565` after `n` iterations (`x = 0 .. n - 1`):
`srcLine` is at byte offset `srcOff` of the source and `dstLine` at byte offset
`dstOff` of the destination; a `struct rgb` is three bytes, red first. -/
def convertLine (source : Memory) (srcOff : Nat) (dstOff : Nat) (dest : Memory) :
    Nat → Memory
  | 0 => dest
  | x + 1 =>
    writeU16 (convertLine source srcOff dstOff dest x) (dstOff + 2 * x)
      (rgb_to_565 (source (srcOff + 3 * x)) (source (srcOff + 3 * x + 1))
        (source (srcOff + 3 * x + 2)))

/-- The outer loop of `rgbBitmapTo565` after `n` iterations (`y = 0 .. n - 1`):
in iteration `y` the pointer `source` has been advanced `y` times by
`sourceStride` and `dest` `y` times by `info->stride`. -/
def convertLines (source : Memory) (sourceStride : Nat) (info : AndroidBitmapInfo)
    (dest : Memory) : Nat → Memory
  | 0 => dest
  | y + 1 =>
    convertLine source (y * sourceStride) (y * info.stride)
      (convertLines source sourceStride info dest y) info.width

/-- Source `rgbBitmapTo565`: the destination buffer after the call. -/
def rgbBitmapTo565 (source : Memory) (sourceStride : Nat) (dest : Memory)
    (info : AndroidBitmapInfo) : Memory :=
  convertLines source sourceStride info dest info.height

/-! ## Rendering -/

/-- Modelled from the spec: the render flag "draw annotations" of the engine
header `fpdfview.h`, which is not among the sources. -/
def FPDF_ANNOT : Nat := 0x01

/-- Modelled from the spec: the render flag "reverse byte order" of the engine
header `fpdfview.h`, which is not among the sources. -/
def FPDF_REVERSE_BYTE_ORDER : Nat := 0x10

/-- Bytes per pixel of an engine bitmap layout. -/
def bytesPerPixel : FPDFBitmapFormat → Nat
  | FPDFBitmapFormat.FPDFBitmap_BGR => 3
  | FPDFBitmapFormat.FPDFBitmap_BGRA => 4

/-- Byte offset of byte `k` of pixel `(x, y)` in the buffer of an engine bitmap. -/
def pixelAddr (bm : FPDF_BITMAP) (x y k : Nat) : Nat :=
  y * bm.stride.toNat + x * bytesPerPixel bm.format + k

/-- Byte `k` of a pixel filled with the 32-bit colour `color`: blue, green,
red, alpha from the lowest byte of the colour upwards. -/
def colorByte (color k : Nat) : Nat :=
  color / 256 ^ k % 256

/-- Whether pixel `(x, y)` lies in the rectangle with corner `(left, top)` and
the given size. -/
def inRect (left top width height : Int) (x y : Nat) : Prop :=
  left ≤ x ∧ (x : Int) < left + width ∧ top ≤ y ∧ (y : Int) < top + height

instance (left top width height : Int) (x y : Nat) :
    Decidable (inRect left top width height x y) :=
  inferInstanceAs
    (Decidable (left ≤ x ∧ (x : Int) < left + width ∧ top ≤ y ∧ (y : Int) < top + height))

/-- Modelled from the spec: the effect of the engine's rectangle fill, which
is not among the sources, on the bitmap's buffer ("pre-fill the entire canvas
with a neutral gray", "pre-fill the destination's visible draw rectangle with
white"): every pixel of the bitmap inside the rectangle gets the colour, every
other byte is kept. -/
def fillRectEffect (bm : FPDF_BITMAP) (left top width height : Int) (color : Nat)
    (mem : Memory) : Memory :=
  fun a =>
    let y := a / bm.stride.toNat
    let x := a % bm.stride.toNat / bytesPerPixel bm.format
    let k := a % bm.stride.toNat % bytesPerPixel bm.format
    if (x : Int) < bm.width ∧ (y : Int) < bm.height ∧ inRect left top width height x y then
      colorByte color k
    else mem a

/-- Engine call `FPDFBitmap_CreateEx` on an external buffer: recorded, and the
descriptor of the new bitmap is returned. -/
def FPDFBitmap_CreateEx (width height : Int) (format : FPDFBitmapFormat) (buffer : BufferId)
    (stride : Int) (w : World) : FPDF_BITMAP × World :=
  ({ width := width, height := height, format := format, buffer := buffer, stride := stride },
    w.call (EngineCall.FPDFBitmap_CreateEx width height format buffer stride))

/-- Engine call `FPDFBitmap_FillRect`: recorded, and the buffer is filled. -/
def FPDFBitmap_FillRect (bm : FPDF_BITMAP) (left top width height : Int) (color : Nat)
    (s : World × Memory) : World × Memory :=
  (s.1.call (EngineCall.FPDFBitmap_FillRect left top width height color),
    fillRectEffect bm left top width height color s.2)

/-- Engine call `FPDF_RenderPageBitmap`: recorded, and the buffer is painted
by the rasterizer. -/
def FPDF_RenderPageBitmap (E : Engine) (bm : FPDF_BITMAP) (page : Nat)
    (startX startY sizeX sizeY rotate : Int) (flags : Nat) (s : World × Memory) :
    World × Memory :=
  (s.1.call (EngineCall.FPDF_RenderPageBitmap page startX startY sizeX sizeY rotate flags),
    E.FPDF_RenderPageBitmap bm page startX startY sizeX sizeY rotate flags s.2)

/-- The fields of `ANativeWindow_Buffer` that the bridge reads: size and
stride in pixels, and the locked bits. -/
structure ANativeWindow_Buffer where
  width : Int
  height : Int
  stride : Int
  bits : Memory

/-- Source `renderPageInternal` (surface path): the world and the window bits
after the call. -/
def renderPageInternal (E : Engine) (page : Nat) (windowBuffer : ANativeWindow_Buffer)
    (startX startY canvasHorSize canvasVerSize drawSizeHor drawSizeVer : Int)
    (renderAnnot : Bool) (w : World) : World × Memory :=
  let (pdfBitmap, w1) := FPDFBitmap_CreateEx canvasHorSize canvasVerSize
    FPDFBitmapFormat.FPDFBitmap_BGRA BufferId.windowBits (windowBuffer.stride * 4) w
  let s1 : World × Memory := (w1, windowBuffer.bits)
  let s2 :=
    if drawSizeHor < canvasHorSize ∨ drawSizeVer < canvasVerSize then
      FPDFBitmap_FillRect pdfBitmap 0 0 canvasHorSize canvasVerSize 0x848484FF s1
    else s1
  let flags := FPDF_REVERSE_BYTE_ORDER
  let flags := if renderAnnot then flags ||| FPDF_ANNOT else flags
  FPDF_RenderPageBitmap E pdfBitmap page startX startY drawSizeHor drawSizeVer 0 flags s2

/-- A Java `Bitmap` as the bridge sees it: what `AndroidBitmap_getInfo`
answers (`none` when it fails), whether `AndroidBitmap_lockPixels` succeeds,
and the pixel buffer the lock gives access to. -/
structure JavaBitmap where
  getInfo : Option AndroidBitmapInfo
  lockPixels : Bool
  pixels : Memory

/-- Source `nativeRenderPageBitmap`: the world and the bitmap after the call.
`bitmap` is `none` for a `NULL` object, `pagePtr` is `0` for a `NULL` page,
and `scratch` is the content of the freshly `malloc`ed buffer `tmp` of the
RGB565 path.  No statement inside the `try` throws, so the `catch` is never
entered. -/
def nativeRenderPageBitmap (E : Engine) (scratch : Memory) (pagePtr : Nat)
    (bitmap : Option JavaBitmap) (startX startY drawSizeHor drawSizeVer : Int)
    (renderAnnot : Bool) (w : World) : World × Option JavaBitmap :=
  match bitmap with
  | none => (w, none)
  | some bmp =>
    if pagePtr = 0 then (w, some bmp)
    else
      match bmp.getInfo with
      | none => (w, some bmp)
      | some info =>
        let canvasHorSize : Int := info.width
        let canvasVerSize : Int := info.height
        if info.format ≠ AndroidBitmapFormat.ANDROID_BITMAP_FORMAT_RGBA_8888 ∧
            info.format ≠ AndroidBitmapFormat.ANDROID_BITMAP_FORMAT_RGB_565 then
          (w, some bmp)
        else if bmp.lockPixels = false then (w, some bmp)
        else
          let addr := bmp.pixels
          let is565 : Bool :=
            decide (info.format = AndroidBitmapFormat.ANDROID_BITMAP_FORMAT_RGB_565)
          let tmp := if is565 then scratch else addr
          let tmpId := if is565 then BufferId.scratch else BufferId.bitmapPixels
          let sourceStride : Int := if is565 then canvasHorSize * 3 else info.stride
          let format :=
            if is565 then FPDFBitmapFormat.FPDFBitmap_BGR else FPDFBitmapFormat.FPDFBitmap_BGRA
          let (pdfBitmap, w1) :=
            FPDFBitmap_CreateEx canvasHorSize canvasVerSize format tmpId sourceStride w
          let s1 : World × Memory := (w1, tmp)
          let s2 :=
            if drawSizeHor < canvasHorSize ∨ drawSizeVer < canvasVerSize then
              FPDFBitmap_FillRect pdfBitmap 0 0 canvasHorSize canvasVerSize 0x848484FF s1
            else s1
          let baseHorSize := if canvasHorSize < drawSizeHor then canvasHorSize else drawSizeHor
          let baseVerSize := if canvasVerSize < drawSizeVer then canvasVerSize else drawSizeVer
          let baseX := if startX < 0 then 0 else startX
          let baseY := if startY < 0 then 0 else startY
          let flags := FPDF_REVERSE_BYTE_ORDER
          let flags := if renderAnnot then flags ||| FPDF_ANNOT else flags
          let s3 :=
            if is565 then
              FPDFBitmap_FillRect pdfBitmap baseX baseY baseHorSize baseVerSize 0xFFFFFFFF s2
            else s2
          let s4 := FPDF_RenderPageBitmap E pdfBitmap pagePtr startX startY drawSizeHor
            drawSizeVer 0 flags s3
          let pixels :=
            if is565 then rgbBitmapTo565 s4.2 sourceStride.toNat addr info else s4.2
          (s4.1, some { bmp with pixels := pixels })

/-- The rasterizer paints only inside the draw rectangle: a byte of a pixel of
the bitmap that lies outside the rectangle `(startX, startY, sizeX, sizeY)` is
left as it was. -/
def PaintsInsideDrawRect (E : Engine) : Prop :=
  ∀ (bm : FPDF_BITMAP) (page : Nat) (startX startY sizeX sizeY rotate : Int) (flags : Nat)
    (mem : Memory) (x y k : Nat),
    (x : Int) < bm.width → (y : Int) < bm.height → k < bytesPerPixel bm.format →
    ¬ inRect startX startY sizeX sizeY x y →
    E.FPDF_RenderPageBitmap bm page startX startY sizeX sizeY rotate flags mem
        (pixelAddr bm x y k) = mem (pixelAddr bm x y k)

/-- An engine that opens nothing, reports error code `0`, whose rasterizer
paints nothing and whose saves fail; used for concrete evaluations. -/
def idleEngine : Engine :=
  { FPDF_LoadCustomDocument := fun _ _ _ => 0
    FPDF_LoadMemDocument := fun _ _ _ => 0
    FPDF_GetLastError := 0
    FPDF_LoadPage := fun _ _ _ => 0
    FPDF_RenderPageBitmap := fun _ _ _ _ _ _ _ _ mem => mem
    FPDFPage_CreateAnnot := fun _ _ => 0
    FPDF_SaveAsCopy := fun _ _ => false }

/-- A 10 x 10 RGB565 bitmap with 20-byte rows and zeroed pixels. -/
def sampleBitmap565 : JavaBitmap :=
  { getInfo := some ⟨10, 10, 20, AndroidBitmapFormat.ANDROID_BITMAP_FORMAT_RGB_565⟩,
    lockPixels := true,
    pixels := fun _ => 0 }

/-- A 10 x 10 RGBA_4444 bitmap with 20-byte rows and zeroed pixels. -/
def sampleBitmap4444 : JavaBitmap :=
  { getInfo := some ⟨10, 10, 20, AndroidBitmapFormat.ANDROID_BITMAP_FORMAT_RGBA_4444⟩,
    lockPixels := true,
    pixels := fun _ => 0 }

/-- An engine holding one-page documents: page `0` loads (as page pointer
`77`), every other index yields no page; the last error it reports is `0`;
annotations are created with handle `9` and saves succeed. -/
def onePageEngine : Engine :=
  { FPDF_LoadCustomDocument := fun _ _ _ => 5
    FPDF_LoadMemDocument := fun _ _ _ => 5
    FPDF_GetLastError := 0
    FPDF_LoadPage := fun _ _ pageIndex => if pageIndex = 0 then 77 else 0
    FPDF_RenderPageBitmap := fun _ _ _ _ _ _ _ _ mem => mem
    FPDFPage_CreateAnnot := fun _ _ => 9
    FPDF_SaveAsCopy := fun _ _ => true }

/-- A 2 x 1 RGB565 bitmap with 4-byte rows and zeroed pixels. -/
def tinyBitmap565 : JavaBitmap :=
  { getInfo := some ⟨2, 1, 4, AndroidBitmapFormat.ANDROID_BITMAP_FORMAT_RGB_565⟩,
    lockPixels := true,
    pixels := fun _ => 0 }

/-! ## Batch page operations -/

/-- The loop of `nativeLoadPages` after `n` iterations (`i = 0 .. n - 1`): the
filled part of the local array `pages` and the world. -/
def loadPagesLoop (E : Engine) (doc : Option DocumentFile) (fromIndex : Int) (w : World) :
    Nat → List Int × World
  | 0 => ([], w)
  | i + 1 =>
    let (pages, w1) := loadPagesLoop E doc fromIndex w i
    let (pagePtr, w2) := loadPageInternal E doc ((i : Int) + fromIndex) w1
    (pages ++ [pagePtr], w2)

/-- The value a 32-bit `int` holds after an arithmetic result `x`: `x` reduced
into `[-2 ^ 31, 2 ^ 31)` (two's complement wrap-around). -/
def wrapInt32 (x : Int) : Int :=
  (x + 2147483648) % 4294967296 - 2147483648

/-- Source `nativeLoadPages`.  The outer `none` is a call without a defined
result: the local array `jlong pages[toIndex - fromIndex + 1]` lives on the
stack, `stackSlots` is the number of `jlong` entries the stack can still hold,
and a call whose array length is negative or exceeds `stackSlots` overruns
the stack.  Otherwise the inner `none` is the `NULL` returned for an empty
range and `some pages` the content of the new Java `long` array.  The
difference `toIndex - fromIndex` and the array length are computed in 32-bit
`jint`; the loop runs for `i = 0 .. toIndex - fromIndex`, and when the array
fits, that is exactly the array length (`i + fromIndex` then stays between
`fromIndex` and `toIndex`). -/
def nativeLoadPages (stackSlots : Nat) (E : Engine) (docPtr : Option DocumentFile)
    (fromIndex toIndex : Int) (w : World) : Option (Option (List Int) × World) :=
  if toIndex < fromIndex then some (none, w)
  else
    let diff := wrapInt32 (toIndex - fromIndex)
    let length := wrapInt32 (diff + 1)
    if length < 0 ∨ (stackSlots : Int) < length then none
    else
      let (pages, w1) := loadPagesLoop E docPtr fromIndex w (diff + 1).toNat
      some (some pages, w1)

/-- Source `nativeClosePages`: `closePageInternal` on `pages[i]` for
`i = 0 .. length - 1`. -/
def nativeClosePages (pagesPtr : List Int) (w : World) : World :=
  pagesPtr.foldl (fun w1 pagePtr => closePageInternal pagePtr w1) w

/-- The exception a failed `loadPageInternal` raises. -/
def cannotLoadPage : JavaThrow :=
  { className := "com/harissk/pdfium/exception/UnknownException", message := "cannot load page" }

/-! ## File access -/

/-- Source `getBlock`.  `pread fd size position` is what the positioned read
returns: the number of bytes read, or a negative value on failure (a single
read transfers fewer than `2 ^ 31` bytes, so the `int` holds it). -/
def getBlock (pread : Int → Nat → Nat → Int) (param : Int) (position size : Nat) : Int :=
  let fd := param
  let readCount := pread fd size position
  if readCount < 0 then 0 else 1

/-- An engine that refuses every document with the format error code `3`. -/
def formatErrorEngine : Engine :=
  { FPDF_LoadCustomDocument := fun _ _ _ => 0
    FPDF_LoadMemDocument := fun _ _ _ => 0
    FPDF_GetLastError := 3
    FPDF_LoadPage := fun _ _ _ => 0
    FPDF_RenderPageBitmap := fun _ _ _ _ _ _ _ _ mem => mem
    FPDFPage_CreateAnnot := fun _ _ => 0
    FPDF_SaveAsCopy := fun _ _ => false }

/-! ## Annotations -/

/-- Modelled from the spec: the annotation subtype "text" of the engine header
`fpdf_annot.h`, which is not among the sources. -/
def FPDF_ANNOT_TEXT : Nat := 1

/-- Modelled from the spec: the colour type "color" of the engine header
`fpdf_annot.h`, which is not among the sources. -/
def FPDFANNOT_COLORTYPE_Color : Nat := 0

/-- Modelled from the spec: the save flag "incremental" of the engine header
`fpdf_save.h`, which is not among the sources. -/
def FPDF_INCREMENTAL : Nat := 1

/-- Source `kContentsKey`. -/
def kContentsKey : String := "Contents"

/-- The loop of `convertWideString`: two bytes per code unit, low byte first. -/
def convertWideStringLoop : List Nat → List Nat
  | [] => []
  | w :: rest => (w &&& 0xff) :: ((w >>> 8) &&& 0xff) :: convertWideStringLoop rest

/-- Source `convertWideString`: the bytes of the `malloc`ed buffer, for a Java
string given by its UTF-16 code units. -/
def convertWideString (query : List Nat) : List Nat :=
  convertWideStringLoop query ++ [0, 0]

/-- The colour selection of `nativeAddTextAnnotation`: the four components of
the array, each `jint` converted to `unsigned int`, when `colorsLen == 4`, and
the fixed colour `51u, 102u, 153u, 204u` otherwise. -/
def annotationColour (color_ : List Int) : Nat × Nat × Nat × Nat :=
  match color_ with
  | [c0, c1, c2, c3] =>
    ((c0 % 4294967296).toNat, (c1 % 4294967296).toNat, (c2 % 4294967296).toNat,
      (c3 % 4294967296).toNat)
  | _ => (51, 102, 153, 204)

/-- Source `nativeAddTextAnnotation`.  `text_` is the string by its UTF-16
code units, `color_` and `bound_` are the contents of the two `int` arrays.
The rectangle is recorded by the four `jint` values assigned to the `float`
fields of `FS_RECTF`; the colour is chosen by `annotationColour`.  Where `doc->pdfDocument` is read the page load has succeeded,
so `doc` is not `NULL`. -/
def nativeAddTextAnnotation (E : Engine) (docPtr : Option DocumentFile) (page_index : Int)
    (text_ : List Nat) (color_ : List Int) (bound_ : List Int) (w : World) : Int × World :=
  let (pagePtrAsJlong, w1) := loadPageInternal E docPtr page_index w
  if pagePtrAsJlong = -1 then (-1, w1)
  else
    let page := pagePtrAsJlong
    match bound_ with
    | [left, top, right, bottom] =>
      let (R, G, B, A) := annotationColour color_
      let annot := E.FPDFPage_CreateAnnot page FPDF_ANNOT_TEXT
      let w2 := w1.call (EngineCall.FPDFPage_CreateAnnot page FPDF_ANNOT_TEXT)
      let w3 := w2.call (EngineCall.FPDFAnnot_SetRect annot left top right bottom)
      let w4 := w3.call (EngineCall.FPDFAnnot_SetColor annot FPDFANNOT_COLORTYPE_Color R G B A)
      let kContents := convertWideString text_
      let w5 := w4.call (EngineCall.FPDFAnnot_SetStringValue annot kContentsKey kContents)
      let pdfDoc :=
        match docPtr with
        | some doc => doc.pdfDocument
        | none => 0
      let w6 := w5.call (EngineCall.FPDF_SaveAsCopy pdfDoc FPDF_INCREMENTAL)
      if E.FPDF_SaveAsCopy pdfDoc FPDF_INCREMENTAL = false then (-1, w6)
      else
        let w7 := closePageInternal pagePtrAsJlong w6
        let (pagePtrReloaded, w8) := loadPageInternal E docPtr page_index w7
        if pagePtrReloaded = -1 then (-1, w8)
        else
          let w9 := w8.call (EngineCall.onAnnotationAdded page_index pagePtrReloaded)
          ((annot : Int), w9)
    | _ => (-1, w1)

/-- An engine like `onePageEngine` whose incremental save fails. -/
def saveFailingEngine : Engine :=
  { onePageEngine with FPDF_SaveAsCopy := fun _ _ => false }

/-- An engine like `onePageEngine` in which no page loads any more once a save
has been made. -/
def reloadFailingEngine : Engine :=
  { onePageEngine with
    FPDF_LoadPage := fun history _ pageIndex =>
      if history.any (fun c => decide (c = EngineCall.FPDF_SaveAsCopy 5 FPDF_INCREMENTAL))
      then 0
      else if pageIndex = 0 then 77 else 0 }

/-- The engine page loads made for the first `n` indices of a batch that
starts at `fromIndex`, in ascending index order. -/
def loadCallsBefore (pdfDoc : Nat) (fromIndex : Int) (n : Nat) : List EngineCall :=
  (List.range n).map (fun j => EngineCall.FPDF_LoadPage pdfDoc ((j : Int) + fromIndex))

/-- The value of slot `i` of a batch on an open document: the page the engine
gives for index `fromIndex + i` when asked after the loads of the earlier
indices, or the failure value `-1` when it gives none. -/
def loadSlot (E : Engine) (w : World) (pdfDoc : Nat) (fromIndex : Int) (i : Nat) : Int :=
  if E.FPDF_LoadPage (w.calls ++ loadCallsBefore pdfDoc fromIndex i) pdfDoc
      ((i : Int) + fromIndex) = 0 then -1
  else (E.FPDF_LoadPage (w.calls ++ loadCallsBefore pdfDoc fromIndex i) pdfDoc
      ((i : Int) + fromIndex) : Int)

/-- The class of the exception raised last, if any. -/
def lastThrownClass (w : World) : Option String :=
  w.thrown.getLast?.map JavaThrow.className

/-- The engine calls that change a document: annotation creation, the setting
of an annotation property, and the save. -/
def isMutation : EngineCall → Bool
  | EngineCall.FPDFPage_CreateAnnot _ _ => true
  | EngineCall.FPDFAnnot_SetRect _ _ _ _ _ => true
  | EngineCall.FPDFAnnot_SetColor _ _ _ _ _ _ => true
  | EngineCall.FPDFAnnot_SetStringValue _ _ _ => true
  | EngineCall.FPDF_SaveAsCopy _ _ => true
  | _ => false

/-- The notification of the Java caller. -/
def isNotification : EngineCall → Bool
  | EngineCall.onAnnotationAdded _ _ => true
  | _ => false

/-- The first seven steps of the annotation protocol as engine calls: load the
page by index, create the text annotation, set its rectangle, set its colour,
set its `Contents` string, save incrementally, close the original page. -/
def protocolCallsBeforeReload (pdfDoc : Nat) (page_index : Int) (page annot : Nat)
    (left top right bottom : Int) (colour : Nat × Nat × Nat × Nat) (text_ : List Nat) :
    List EngineCall :=
  [EngineCall.FPDF_LoadPage pdfDoc page_index,
    EngineCall.FPDFPage_CreateAnnot page FPDF_ANNOT_TEXT,
    EngineCall.FPDFAnnot_SetRect annot left top right bottom,
    EngineCall.FPDFAnnot_SetColor annot FPDFANNOT_COLORTYPE_Color colour.1 colour.2.1
      colour.2.2.1 colour.2.2.2,
    EngineCall.FPDFAnnot_SetStringValue annot kContentsKey (convertWideString text_),
    EngineCall.FPDF_SaveAsCopy pdfDoc FPDF_INCREMENTAL,
    EngineCall.FPDF_ClosePage page]

/-! ## Text search -/

/-- Modelled from the spec: the search flag "match case" of the engine header
`fpdf_text.h`, which is not among the sources. -/
def FPDF_MATCHCASE : Nat := 0x00000001

/-- Modelled from the spec: the search flag "match whole word" of the engine
header `fpdf_text.h`, which is not among the sources. -/
def FPDF_MATCHWHOLEWORD : Nat := 0x00000002

/-- Source `nativeSearchStart`.  `query` is the Java string by its UTF-16 code
units and `search` the handle the engine's `FPDFText_FindStart` answers; the
transcoded buffer is freed right after the engine call. -/
def nativeSearchStart (search : Nat) (textPagePtr : Int) (query : List Nat)
    (matchCase matchWholeWord : Bool) (w : World) : Int × World :=
  let pQuery := convertWideString query
  let flags := 0
  let flags := if matchCase then FPDF_MATCHCASE else flags
  let flags := if matchWholeWord then flags ||| FPDF_MATCHWHOLEWORD else flags
  ((search : Int), w.call (EngineCall.FPDFText_FindStart textPagePtr pQuery flags 0))

/-! ## Lemmas on the guard -/

theorem runGuard_append (xs ys : List GuardOp) (w : World) :
    runGuard (xs ++ ys) w = runGuard ys (runGuard xs w) := by
  simp [runGuard, List.foldl_append]

theorem guardStep_keeps_invariant (w : World) (op : GuardOp)
    (h : w.libraryInitialized = true ↔ 1 ≤ w.sLibraryReferenceCount) :
    (guardStep w op).libraryInitialized = true ↔ 1 ≤ (guardStep w op).sLibraryReferenceCount := by
  cases op
  · by_cases h0 : w.sLibraryReferenceCount = 0
    · simp [guardStep, initLibraryIfNeed, FPDF_InitLibrary, World.call, h0]
    · simp only [guardStep, initLibraryIfNeed, h0, if_false]
      rw [h]
      constructor <;> intro h1 <;> omega
  · by_cases h1 : w.sLibraryReferenceCount - 1 = 0
    · simp [guardStep, destroyLibraryIfNeed, FPDF_DestroyLibrary, World.call, h1]
    · simp only [guardStep, destroyLibraryIfNeed, h1, if_false]
      rw [h]
      constructor <;> intro h2 <;> omega

theorem runGuard_keeps_invariant (ops : List GuardOp) (w : World)
    (h : w.libraryInitialized = true ↔ 1 ≤ w.sLibraryReferenceCount) :
    (runGuard ops w).libraryInitialized = true ↔ 1 ≤ (runGuard ops w).sLibraryReferenceCount := by
  induction ops generalizing w with
  | nil => simpa [runGuard] using h
  | cons op rest ih =>
    have hstep := guardStep_keeps_invariant w op h
    simpa [runGuard] using ih (guardStep w op) hstep

theorem guardStep_count (w : World) (op : GuardOp) :
    (guardStep w op).sLibraryReferenceCount =
      w.sLibraryReferenceCount + (if op = GuardOp.acquire then 1 else -1) := by
  cases op
  · by_cases h0 : w.sLibraryReferenceCount = 0 <;>
      simp [guardStep, initLibraryIfNeed, FPDF_InitLibrary, World.call, h0]
  · by_cases h1 : w.sLibraryReferenceCount - 1 = 0
    · simp [guardStep, destroyLibraryIfNeed, FPDF_DestroyLibrary, World.call, h1]
      omega
    · simp [guardStep, destroyLibraryIfNeed, h1]
      omega

/-- The counter moves by one per call, so after `n` calls from `0` it lies in
`[-n, n]`: the C `int` cannot overflow in fewer than `2 ^ 31` guard calls. -/
theorem runGuard_count_bound (ops : List GuardOp) (w : World) :
    |(runGuard ops w).sLibraryReferenceCount - w.sLibraryReferenceCount| ≤ ops.length := by
  induction ops generalizing w with
  | nil => simp [runGuard]
  | cons op rest ih =>
    have h1 := ih (guardStep w op)
    have h2 := guardStep_count w op
    have h3 : runGuard (op :: rest) w = runGuard rest (guardStep w op) := by
      simp [runGuard]
    rw [h3]
    rw [abs_le] at h1 ⊢
    simp only [List.length_cons, Nat.cast_add, Nat.cast_one]
    cases op
    · simp only [if_true] at h2
      constructor <;> omega
    · simp only [reduceCtorEq, if_false] at h2
      constructor <;> omega

theorem guardStep_calls (w : World) (op : GuardOp) :
    (guardStep w op).calls =
      w.calls ++
        (if op = GuardOp.acquire ∧ w.sLibraryReferenceCount = 0 then
          [EngineCall.FPDF_InitLibrary]
        else if op = GuardOp.release ∧ w.sLibraryReferenceCount - 1 = 0 then
          [EngineCall.FPDF_DestroyLibrary]
        else []) := by
  cases op
  · by_cases h0 : w.sLibraryReferenceCount = 0 <;>
      simp [guardStep, initLibraryIfNeed, FPDF_InitLibrary, World.call, h0]
  · by_cases h1 : w.sLibraryReferenceCount - 1 = 0 <;>
      simp [guardStep, destroyLibraryIfNeed, FPDF_DestroyLibrary, World.call, h1]

/-! ## Lemmas on exceptions, documents and pages -/

theorem initLibraryIfNeed_count (w : World) :
    (initLibraryIfNeed w).sLibraryReferenceCount = w.sLibraryReferenceCount + 1 := by
  simpa [guardStep] using guardStep_count w GuardOp.acquire

theorem destroyLibraryIfNeed_count (w : World) :
    (destroyLibraryIfNeed w).sLibraryReferenceCount = w.sLibraryReferenceCount - 1 := by
  have h := guardStep_count w GuardOp.release
  simp only [guardStep, reduceCtorEq, if_false] at h
  omega

theorem initLibraryIfNeed_thrown (w : World) : (initLibraryIfNeed w).thrown = w.thrown := by
  by_cases h0 : w.sLibraryReferenceCount = 0 <;>
    simp [initLibraryIfNeed, FPDF_InitLibrary, World.call, h0]

theorem destroyLibraryIfNeed_thrown (w : World) :
    (destroyLibraryIfNeed w).thrown = w.thrown := by
  by_cases h1 : w.sLibraryReferenceCount - 1 = 0 <;>
    simp [destroyLibraryIfNeed, FPDF_DestroyLibrary, World.call, h1]

theorem throwPdfiumException_count (errorNum : Int) (w : World) :
    (throwPdfiumException errorNum w).sLibraryReferenceCount = w.sLibraryReferenceCount := by
  unfold throwPdfiumException
  repeat' split
  all_goals rfl

theorem throwPdfiumException_thrown (errorNum : Int) (w : World) :
    ∃ t, (throwPdfiumException errorNum w).thrown = w.thrown ++ [t] := by
  unfold throwPdfiumException
  repeat' split
  all_goals exact ⟨_, rfl⟩

theorem DocumentFile_delete_count (d : DocumentFile) (w : World) :
    (DocumentFile.delete d w).sLibraryReferenceCount = w.sLibraryReferenceCount - 1 := by
  unfold DocumentFile.delete
  rw [destroyLibraryIfNeed_count]
  by_cases h : d.pdfDocument = 0 <;> simp [World.call, h]

theorem DocumentFile_delete_thrown (d : DocumentFile) (w : World) :
    (DocumentFile.delete d w).thrown = w.thrown := by
  unfold DocumentFile.delete
  rw [destroyLibraryIfNeed_thrown]
  by_cases h : d.pdfDocument = 0 <;> simp [World.call, h]

/-- After the constructor has run and the engine refused the document, the
failure path (destructor, last-error query, classified throw) is balanced. -/
theorem failedOpen_balanced (errorNum : Int) (c : EngineCall) (w : World) :
    OpenBalanced w (JLong.value (-1),
      throwPdfiumException errorNum
        ((DocumentFile.delete { pdfDocument := 0 } ((initLibraryIfNeed w).call c)).call
          EngineCall.FPDF_GetLastError)) := by
  obtain ⟨t, ht⟩ := throwPdfiumException_thrown errorNum
    ((DocumentFile.delete { pdfDocument := 0 } ((initLibraryIfNeed w).call c)).call
      EngineCall.FPDF_GetLastError)
  refine ⟨?_, t, ?_⟩
  · rw [throwPdfiumException_count]
    show (DocumentFile.delete _ _).sLibraryReferenceCount = _
    rw [DocumentFile_delete_count]
    show (initLibraryIfNeed w).sLibraryReferenceCount - 1 = _
    rw [initLibraryIfNeed_count]
    omega
  · rw [ht]
    show (DocumentFile.delete _ _).thrown ++ [t] = _
    rw [DocumentFile_delete_thrown]
    show (initLibraryIfNeed w).thrown ++ [t] = _
    rw [initLibraryIfNeed_thrown]

/-- After the constructor has run and the engine gave a document, closing the
returned handle is balanced. -/
theorem successfulOpen_balanced (document : Nat) (hdoc : document ≠ 0) (c : EngineCall)
    (w : World) :
    OpenBalanced w (JLong.docFile { pdfDocument := document }, (initLibraryIfNeed w).call c) := by
  refine ⟨hdoc, ?_, _, rfl, ?_⟩
  · show (initLibraryIfNeed w).thrown = _
    rw [initLibraryIfNeed_thrown]
  · rw [DocumentFile_delete_count]
    show (initLibraryIfNeed w).sLibraryReferenceCount - 1 = _
    rw [initLibraryIfNeed_count]
    omega

/-! ## Lemmas on the RGB565 conversion -/

set_option maxRecDepth 100000 in
theorem redChannel_round_all :
    ∀ c, c < 256 → ((c * 249 + 1014) >>> 11) % 256 = (62 * c + 255) / 510 := by
  decide

theorem redChannel_round (c : Nat) (hc : c < 256) :
    ((c * 249 + 1014) >>> 11) % 256 = (62 * c + 255) / 510 :=
  redChannel_round_all c hc

set_option maxRecDepth 100000 in
theorem greenChannel_round_all :
    ∀ c, c < 256 → ((c * 253 + 505) >>> 10) % 256 = (126 * c + 255) / 510 := by
  decide

theorem greenChannel_round (c : Nat) (hc : c < 256) :
    ((c * 253 + 505) >>> 10) % 256 = (126 * c + 255) / 510 :=
  greenChannel_round_all c hc

theorem pack565 (r g b : Nat) (hr : r < 32) (hg : g < 64) (hb : b < 32) :
    ((r <<< 11) ||| (g <<< 5) ||| b) % 65536 = 2048 * r + 32 * g + b := by
  have h1 : 2 ^ 5 * g + b = 2 ^ 5 * g ||| b := Nat.mul_add_lt_is_or (by norm_num; omega) g
  have h2 : 2 ^ 11 * r + (2 ^ 5 * g + b) = 2 ^ 11 * r ||| (2 ^ 5 * g + b) :=
    Nat.mul_add_lt_is_or (by norm_num; omega) r
  rw [Nat.shiftLeft_eq, Nat.shiftLeft_eq, Nat.or_assoc, Nat.mul_comm r, Nat.mul_comm g,
    ← h1, ← h2]
  norm_num
  omega

theorem rgb_to_565_eq (R8 G8 B8 : Nat) (hR : R8 < 256) (hG : G8 < 256) (hB : B8 < 256) :
    rgb_to_565 R8 G8 B8 =
      2048 * ((62 * R8 + 255) / 510) + 32 * ((126 * G8 + 255) / 510) +
        (62 * B8 + 255) / 510 := by
  unfold rgb_to_565
  simp only [redChannel_round R8 hR, greenChannel_round G8 hG, redChannel_round B8 hB]
  apply pack565 <;> omega

theorem twice_abs_lt (x : Int) (h1 : -128 < x) (h2 : x < 128) : 2 * |x| < 255 := by
  have h : |x| < 128 := abs_lt.mpr ⟨h1, h2⟩
  omega

theorem rgb_to_565_lt (R8 G8 B8 : Nat) : rgb_to_565 R8 G8 B8 < 65536 := by
  unfold rgb_to_565
  exact Nat.mod_lt _ (by norm_num)

theorem red565_pack (r g b : Nat) (hg : g < 64) (hb : b < 32) :
    red565 (2048 * r + 32 * g + b) = r := by
  unfold red565
  rw [Nat.shiftRight_eq_div_pow]
  norm_num
  omega

theorem green565_pack (r g b : Nat) (hg : g < 64) (hb : b < 32) :
    green565 (2048 * r + 32 * g + b) = g := by
  unfold green565
  rw [Nat.shiftRight_eq_div_pow]
  norm_num
  omega

theorem blue565_pack (r g b : Nat) (hb : b < 32) :
    blue565 (2048 * r + 32 * g + b) = b := by
  unfold blue565
  omega

/-! ## Lemmas on the scanline conversion -/

theorem writeU16_low (m : Memory) (a v : Nat) : writeU16 m a v a = v % 256 := by
  simp [writeU16, writeByte]

theorem writeU16_high (m : Memory) (a v : Nat) : writeU16 m a v (a + 1) = v / 256 % 256 := by
  simp [writeU16, writeByte]

theorem writeU16_other (m : Memory) (a v i : Nat) (h1 : i ≠ a) (h2 : i ≠ a + 1) :
    writeU16 m a v i = m i := by
  simp [writeU16, writeByte, h1, h2]

theorem readU16_writeU16 (m : Memory) (a v : Nat) (hv : v < 65536) :
    readU16 (writeU16 m a v) a = v := by
  unfold readU16
  rw [writeU16_low, writeU16_high]
  omega

/-- The inner loop writes nothing outside the `2 * n` bytes from `dstOff`. -/
theorem convertLine_frame (source : Memory) (srcOff dstOff : Nat) (dest : Memory) (n a : Nat)
    (h : a < dstOff ∨ dstOff + 2 * n ≤ a) :
    convertLine source srcOff dstOff dest n a = dest a := by
  induction n with
  | zero => rfl
  | succ k ih =>
    simp only [convertLine]
    rw [writeU16_other _ _ _ _ (by omega) (by omega)]
    exact ih (by omega)

/-- The inner loop leaves in pixel `x` the two bytes of the converted colour. -/
theorem convertLine_pixel (source : Memory) (srcOff dstOff : Nat) (dest : Memory) (n x : Nat)
    (hx : x < n) :
    convertLine source srcOff dstOff dest n (dstOff + 2 * x) =
        rgb_to_565 (source (srcOff + 3 * x)) (source (srcOff + 3 * x + 1))
          (source (srcOff + 3 * x + 2)) % 256 ∧
    convertLine source srcOff dstOff dest n (dstOff + 2 * x + 1) =
        rgb_to_565 (source (srcOff + 3 * x)) (source (srcOff + 3 * x + 1))
          (source (srcOff + 3 * x + 2)) / 256 % 256 := by
  induction n with
  | zero => omega
  | succ k ih =>
    simp only [convertLine]
    by_cases hk : x = k
    · subst hk
      exact ⟨writeU16_low _ _ _, writeU16_high _ _ _⟩
    · have hlt : x < k := by omega
      rw [writeU16_other _ _ _ _ (by omega) (by omega),
        writeU16_other _ _ _ _ (by omega) (by omega)]
      exact ih hlt

theorem row_below (stride y n : Nat) (h : y < n) : y * stride + stride ≤ n * stride := by
  have h1 : (y + 1) * stride ≤ n * stride := Nat.mul_le_mul_right stride h
  rw [Nat.add_mul, Nat.one_mul] at h1
  exact h1

/-- The outer loop writes nothing outside the pixel bytes of its rows. -/
theorem convertLines_frame (source : Memory) (sourceStride : Nat) (info : AndroidBitmapInfo)
    (dest : Memory) (n a : Nat)
    (h : ∀ y, y < n → a < y * info.stride ∨ y * info.stride + 2 * info.width ≤ a) :
    convertLines source sourceStride info dest n a = dest a := by
  induction n with
  | zero => rfl
  | succ k ih =>
    simp only [convertLines]
    rw [convertLine_frame _ _ _ _ _ _ (h k (by omega))]
    exact ih (fun y hy => h y (by omega))

/-- The outer loop leaves in pixel `(y, x)` the two bytes of the converted
colour of source pixel `(y, x)`, provided the rows do not overlap. -/
theorem convertLines_pixel (source : Memory) (sourceStride : Nat) (info : AndroidBitmapInfo)
    (dest : Memory) (hstride : 2 * info.width ≤ info.stride) (n y x : Nat)
    (hy : y < n) (hx : x < info.width) :
    convertLines source sourceStride info dest n (y * info.stride + 2 * x) =
        rgb_to_565 (source (y * sourceStride + 3 * x)) (source (y * sourceStride + 3 * x + 1))
          (source (y * sourceStride + 3 * x + 2)) % 256 ∧
    convertLines source sourceStride info dest n (y * info.stride + 2 * x + 1) =
        rgb_to_565 (source (y * sourceStride + 3 * x)) (source (y * sourceStride + 3 * x + 1))
          (source (y * sourceStride + 3 * x + 2)) / 256 % 256 := by
  induction n with
  | zero => omega
  | succ k ih =>
    simp only [convertLines]
    by_cases hk : y = k
    · subst hk
      exact convertLine_pixel _ _ _ _ _ _ hx
    · have hlt : y < k := by omega
      have hrow := row_below info.stride y k hlt
      rw [convertLine_frame _ _ _ _ _ _ (Or.inl (by omega)),
        convertLine_frame _ _ _ _ _ _ (Or.inl (by omega))]
      exact ih hlt

/-! ## Lemmas on rendering -/

/-- The engine calls of the bitmap path for an RGBA_8888 destination. -/
theorem nativeRenderPageBitmap_calls_rgba (E : Engine) (scratch : Memory) (pagePtr : Nat)
    (bmp : JavaBitmap) (info : AndroidBitmapInfo) (startX startY drawSizeHor drawSizeVer : Int)
    (renderAnnot : Bool) (w : World)
    (hpage : pagePtr ≠ 0) (hinfo : bmp.getInfo = some info) (hlock : bmp.lockPixels = true)
    (hfmt : info.format = AndroidBitmapFormat.ANDROID_BITMAP_FORMAT_RGBA_8888) :
    (nativeRenderPageBitmap E scratch pagePtr (some bmp) startX startY drawSizeHor drawSizeVer
        renderAnnot w).1.calls =
      w.calls ++
        [EngineCall.FPDFBitmap_CreateEx info.width info.height FPDFBitmapFormat.FPDFBitmap_BGRA
          BufferId.bitmapPixels info.stride] ++
        (if drawSizeHor < info.width ∨ drawSizeVer < info.height then
          [EngineCall.FPDFBitmap_FillRect 0 0 info.width info.height 0x848484FF]
        else []) ++
        [EngineCall.FPDF_RenderPageBitmap pagePtr startX startY drawSizeHor drawSizeVer 0
          (if renderAnnot then FPDF_REVERSE_BYTE_ORDER ||| FPDF_ANNOT
            else FPDF_REVERSE_BYTE_ORDER)] := by
  by_cases hsmall : drawSizeHor < info.width ∨ drawSizeVer < info.height <;>
    simp [nativeRenderPageBitmap, hpage, hinfo, hlock, hfmt, hsmall, FPDFBitmap_CreateEx,
      FPDF_RenderPageBitmap, FPDFBitmap_FillRect, World.call]

/-- The engine calls of the bitmap path for an RGB_565 destination. -/
theorem nativeRenderPageBitmap_calls_565 (E : Engine) (scratch : Memory) (pagePtr : Nat)
    (bmp : JavaBitmap) (info : AndroidBitmapInfo) (startX startY drawSizeHor drawSizeVer : Int)
    (renderAnnot : Bool) (w : World)
    (hpage : pagePtr ≠ 0) (hinfo : bmp.getInfo = some info) (hlock : bmp.lockPixels = true)
    (hfmt : info.format = AndroidBitmapFormat.ANDROID_BITMAP_FORMAT_RGB_565) :
    (nativeRenderPageBitmap E scratch pagePtr (some bmp) startX startY drawSizeHor drawSizeVer
        renderAnnot w).1.calls =
      w.calls ++
        [EngineCall.FPDFBitmap_CreateEx info.width info.height FPDFBitmapFormat.FPDFBitmap_BGR
          BufferId.scratch (info.width * 3)] ++
        (if drawSizeHor < info.width ∨ drawSizeVer < info.height then
          [EngineCall.FPDFBitmap_FillRect 0 0 info.width info.height 0x848484FF]
        else []) ++
        [EngineCall.FPDFBitmap_FillRect (if startX < 0 then 0 else startX)
            (if startY < 0 then 0 else startY)
            (if (info.width : Int) < drawSizeHor then info.width else drawSizeHor)
            (if (info.height : Int) < drawSizeVer then info.height else drawSizeVer) 0xFFFFFFFF,
          EngineCall.FPDF_RenderPageBitmap pagePtr startX startY drawSizeHor drawSizeVer 0
            (if renderAnnot then FPDF_REVERSE_BYTE_ORDER ||| FPDF_ANNOT
              else FPDF_REVERSE_BYTE_ORDER)] := by
  by_cases hsmall : drawSizeHor < info.width ∨ drawSizeVer < info.height <;>
    simp [nativeRenderPageBitmap, hpage, hinfo, hlock, hfmt, hsmall, FPDFBitmap_CreateEx,
      FPDF_RenderPageBitmap, FPDFBitmap_FillRect, World.call]

/-- When the engine yields no page for a document that is open, `nativeLoadPage`
returns `-1` after two throws: the `UnknownException` of `loadPageInternal`,
then the exception classified from the engine's last error code. -/
theorem nativeLoadPage_no_page (E : Engine) (doc : DocumentFile) (pageIndex : Int) (w : World)
    (hdoc : doc.pdfDocument ≠ 0) (hpage : E.FPDF_LoadPage w.calls doc.pdfDocument pageIndex = 0) :
    nativeLoadPage E (some doc) pageIndex w =
      (-1, throwPdfiumException E.FPDF_GetLastError
        (((throwPdfiumException1 "cannot load page"
          (w.call (EngineCall.FPDF_LoadPage doc.pdfDocument pageIndex)))).call
            EngineCall.FPDF_GetLastError)) := by
  simp [nativeLoadPage, loadPageInternal, hdoc, hpage]

/-- Row, column and byte index are recovered from the byte offset of a pixel
byte when the row fits in the stride. -/
theorem pixel_decode (S b x y k : Nat) (hk : k < b) (hrow : x * b + k < S) :
    (y * S + x * b + k) / S = y ∧ (y * S + x * b + k) % S / b = x ∧
      (y * S + x * b + k) % S % b = k := by
  have hS : 0 < S := by omega
  have hb : 0 < b := by omega
  have e : y * S + x * b + k = (x * b + k) + S * y := by ring
  have e2 : x * b + k = k + b * x := by ring
  rw [e, Nat.add_mul_div_left _ _ hS, Nat.add_mul_mod_self_left, Nat.div_eq_of_lt hrow,
    Nat.mod_eq_of_lt hrow, e2, Nat.add_mul_div_left _ _ hb, Nat.add_mul_mod_self_left,
    Nat.div_eq_of_lt hk, Nat.mod_eq_of_lt hk]
  simp

/-- The fill at a byte of a pixel of the bitmap: the colour inside the
rectangle, the old byte outside. -/
theorem fillRectEffect_pixel (bm : FPDF_BITMAP) (left top width height : Int) (color : Nat)
    (mem : Memory) (x y k : Nat) (hx : (x : Int) < bm.width) (hy : (y : Int) < bm.height)
    (hk : k < bytesPerPixel bm.format)
    (hrow : x * bytesPerPixel bm.format + k < bm.stride.toNat) :
    fillRectEffect bm left top width height color mem (pixelAddr bm x y k) =
      if inRect left top width height x y then colorByte color k
      else mem (pixelAddr bm x y k) := by
  obtain ⟨h1, h2, h3⟩ := pixel_decode bm.stride.toNat (bytesPerPixel bm.format) x y k hk hrow
  unfold fillRectEffect pixelAddr
  simp only [h1, h2, h3, hx, hy, true_and]

/-- The destination pixels after a partial render on the RGBA_8888 path. -/
theorem nativeRenderPageBitmap_pixels_rgba (E : Engine) (scratch : Memory) (pagePtr : Nat)
    (bmp : JavaBitmap) (info : AndroidBitmapInfo) (startX startY drawSizeHor drawSizeVer : Int)
    (renderAnnot : Bool) (w : World)
    (hpage : pagePtr ≠ 0) (hinfo : bmp.getInfo = some info) (hlock : bmp.lockPixels = true)
    (hfmt : info.format = AndroidBitmapFormat.ANDROID_BITMAP_FORMAT_RGBA_8888)
    (hsmall : drawSizeHor < info.width ∨ drawSizeVer < info.height) :
    (nativeRenderPageBitmap E scratch pagePtr (some bmp) startX startY drawSizeHor drawSizeVer
        renderAnnot w).2 =
      some { bmp with
        pixels :=
          E.FPDF_RenderPageBitmap
            ⟨info.width, info.height, FPDFBitmapFormat.FPDFBitmap_BGRA, BufferId.bitmapPixels,
              info.stride⟩
            pagePtr startX startY drawSizeHor drawSizeVer 0
            (if renderAnnot then FPDF_REVERSE_BYTE_ORDER ||| FPDF_ANNOT
              else FPDF_REVERSE_BYTE_ORDER)
            (fillRectEffect
              ⟨info.width, info.height, FPDFBitmapFormat.FPDFBitmap_BGRA,
                BufferId.bitmapPixels, info.stride⟩
              0 0 info.width info.height 0x848484FF bmp.pixels) } := by
  simp [nativeRenderPageBitmap, hpage, hinfo, hlock, hfmt, hsmall, FPDFBitmap_CreateEx,
    FPDF_RenderPageBitmap, FPDFBitmap_FillRect, World.call]

/-- The destination pixels after a partial render on the RGB_565 path. -/
theorem nativeRenderPageBitmap_pixels_565 (E : Engine) (scratch : Memory) (pagePtr : Nat)
    (bmp : JavaBitmap) (info : AndroidBitmapInfo) (startX startY drawSizeHor drawSizeVer : Int)
    (renderAnnot : Bool) (w : World)
    (hpage : pagePtr ≠ 0) (hinfo : bmp.getInfo = some info) (hlock : bmp.lockPixels = true)
    (hfmt : info.format = AndroidBitmapFormat.ANDROID_BITMAP_FORMAT_RGB_565)
    (hsmall : drawSizeHor < info.width ∨ drawSizeVer < info.height) :
    (nativeRenderPageBitmap E scratch pagePtr (some bmp) startX startY drawSizeHor drawSizeVer
        renderAnnot w).2 =
      some { bmp with
        pixels :=
          rgbBitmapTo565
            (E.FPDF_RenderPageBitmap
              ⟨info.width, info.height, FPDFBitmapFormat.FPDFBitmap_BGR, BufferId.scratch,
                info.width * 3⟩
              pagePtr startX startY drawSizeHor drawSizeVer 0
              (if renderAnnot then FPDF_REVERSE_BYTE_ORDER ||| FPDF_ANNOT
                else FPDF_REVERSE_BYTE_ORDER)
              (fillRectEffect
                ⟨info.width, info.height, FPDFBitmapFormat.FPDFBitmap_BGR, BufferId.scratch,
                  info.width * 3⟩
                (if startX < 0 then 0 else startX) (if startY < 0 then 0 else startY)
                (if (info.width : Int) < drawSizeHor then info.width else drawSizeHor)
                (if (info.height : Int) < drawSizeVer then info.height else drawSizeVer)
                0xFFFFFFFF
                (fillRectEffect
                  ⟨info.width, info.height, FPDFBitmapFormat.FPDFBitmap_BGR, BufferId.scratch,
                    info.width * 3⟩
                  0 0 info.width info.height 0x848484FF scratch)))
            (info.width * 3) bmp.pixels info } := by
  have hnat : ((info.width : Int) * 3).toNat = info.width * 3 := by omega
  simp [nativeRenderPageBitmap, hpage, hinfo, hlock, hfmt, hsmall, FPDFBitmap_CreateEx,
    FPDF_RenderPageBitmap, FPDFBitmap_FillRect, World.call, hnat]

/-- Each destination pixel of `rgbBitmapTo565` is the converted source pixel. -/
theorem rgbBitmapTo565_readU16 (source dest : Memory) (sourceStride : Nat)
    (info : AndroidBitmapInfo) (hstride : 2 * info.width ≤ info.stride) (x y : Nat)
    (hx : x < info.width) (hy : y < info.height) :
    readU16 (rgbBitmapTo565 source sourceStride dest info) (y * info.stride + 2 * x) =
      rgb_to_565 (source (y * sourceStride + 3 * x)) (source (y * sourceStride + 3 * x + 1))
        (source (y * sourceStride + 3 * x + 2)) := by
  obtain ⟨hlo, hhi⟩ :=
    convertLines_pixel source sourceStride info dest hstride info.height y x hy hx
  unfold readU16 rgbBitmapTo565
  rw [hlo, hhi]
  have hlt := rgb_to_565_lt (source (y * sourceStride + 3 * x))
    (source (y * sourceStride + 3 * x + 1)) (source (y * sourceStride + 3 * x + 2))
  omega

/-- A margin byte after a gray fill of the whole bitmap and the rasterizer. -/
theorem margin_byte_gray (E : Engine) (hpaint : PaintsInsideDrawRect E) (bm : FPDF_BITMAP)
    (page : Nat) (startX startY drawSizeHor drawSizeVer : Int) (flags : Nat) (mem : Memory)
    (x y k : Nat) (hx : (x : Int) < bm.width) (hy : (y : Int) < bm.height)
    (hk : k < bytesPerPixel bm.format)
    (hrow : x * bytesPerPixel bm.format + k < bm.stride.toNat)
    (hout : ¬ inRect startX startY drawSizeHor drawSizeVer x y) :
    E.FPDF_RenderPageBitmap bm page startX startY drawSizeHor drawSizeVer 0 flags
        (fillRectEffect bm 0 0 bm.width bm.height 0x848484FF mem) (pixelAddr bm x y k) =
      colorByte 0x848484FF k := by
  rw [hpaint bm page startX startY drawSizeHor drawSizeVer 0 flags _ x y k hx hy hk hout,
    fillRectEffect_pixel bm _ _ _ _ _ _ x y k hx hy hk hrow]
  have hin : inRect 0 0 bm.width bm.height x y := by
    unfold inRect
    omega
  simp [hin]

/-- A margin byte after a gray fill of the whole bitmap, a white fill of a
rectangle and the rasterizer. -/
theorem margin_byte_white_over_gray (E : Engine) (hpaint : PaintsInsideDrawRect E)
    (bm : FPDF_BITMAP) (page : Nat) (startX startY drawSizeHor drawSizeVer : Int) (flags : Nat)
    (baseX baseY baseHorSize baseVerSize : Int) (mem : Memory)
    (x y k : Nat) (hx : (x : Int) < bm.width) (hy : (y : Int) < bm.height)
    (hk : k < bytesPerPixel bm.format)
    (hrow : x * bytesPerPixel bm.format + k < bm.stride.toNat)
    (hout : ¬ inRect startX startY drawSizeHor drawSizeVer x y) :
    E.FPDF_RenderPageBitmap bm page startX startY drawSizeHor drawSizeVer 0 flags
        (fillRectEffect bm baseX baseY baseHorSize baseVerSize 0xFFFFFFFF
          (fillRectEffect bm 0 0 bm.width bm.height 0x848484FF mem)) (pixelAddr bm x y k) =
      if inRect baseX baseY baseHorSize baseVerSize x y then colorByte 0xFFFFFFFF k
      else colorByte 0x848484FF k := by
  rw [hpaint bm page startX startY drawSizeHor drawSizeVer 0 flags _ x y k hx hy hk hout,
    fillRectEffect_pixel bm _ _ _ _ _ _ x y k hx hy hk hrow,
    fillRectEffect_pixel bm _ _ _ _ _ _ x y k hx hy hk hrow]
  have hin : inRect 0 0 bm.width bm.height x y := by
    unfold inRect
    omega
  simp [hin]

/-- The idle engine paints nothing, hence nothing outside the draw rectangle. -/
theorem idleEngine_paints_inside : PaintsInsideDrawRect idleEngine := by
  intro bm page startX startY sizeX sizeY rotate flags mem x y k _ _ _ _
  rfl

/-! ## Lemmas on batch page operations -/

theorem loadCallsBefore_succ (pdfDoc : Nat) (fromIndex : Int) (n : Nat) :
    loadCallsBefore pdfDoc fromIndex (n + 1) =
      loadCallsBefore pdfDoc fromIndex n ++
        [EngineCall.FPDF_LoadPage pdfDoc ((n : Int) + fromIndex)] := by
  simp [loadCallsBefore, List.range_succ]

/-- A page load on an open document: one engine call, and either a page and no
throw, or `-1` and the `UnknownException`. -/
theorem loadPageInternal_open (E : Engine) (d : DocumentFile) (pageIndex : Int) (w : World)
    (hdoc : d.pdfDocument ≠ 0) :
    loadPageInternal E (some d) pageIndex w =
      (if E.FPDF_LoadPage w.calls d.pdfDocument pageIndex = 0 then -1
        else (E.FPDF_LoadPage w.calls d.pdfDocument pageIndex : Int),
       { w with
         calls := w.calls ++ [EngineCall.FPDF_LoadPage d.pdfDocument pageIndex],
         thrown := w.thrown ++
           (if E.FPDF_LoadPage w.calls d.pdfDocument pageIndex = 0 then [cannotLoadPage]
            else []) }) := by
  by_cases hp : E.FPDF_LoadPage w.calls d.pdfDocument pageIndex = 0 <;>
    simp [loadPageInternal, hdoc, hp, throwPdfiumException1, jniThrowException, World.call,
      cannotLoadPage]

/-- A page load without an open document: no engine call, `-1` and the
`UnknownException`. -/
theorem loadPageInternal_closed (E : Engine) (doc : Option DocumentFile) (pageIndex : Int)
    (w : World) (hdoc : ∀ d, doc = some d → d.pdfDocument = 0) :
    loadPageInternal E doc pageIndex w =
      (-1, { w with thrown := w.thrown ++ [cannotLoadPage] }) := by
  cases doc with
  | none => simp [loadPageInternal, throwPdfiumException1, jniThrowException, cannotLoadPage]
  | some d =>
    have h0 : d.pdfDocument = 0 := hdoc d rfl
    simp [loadPageInternal, h0, throwPdfiumException1, jniThrowException, cannotLoadPage]

theorem loadPagesLoop_succ (E : Engine) (doc : Option DocumentFile) (fromIndex : Int)
    (w : World) (n : Nat) :
    loadPagesLoop E doc fromIndex w (n + 1) =
      ((loadPagesLoop E doc fromIndex w n).1 ++
          [(loadPageInternal E doc ((n : Int) + fromIndex) (loadPagesLoop E doc fromIndex w n).2).1],
        (loadPageInternal E doc ((n : Int) + fromIndex) (loadPagesLoop E doc fromIndex w n).2).2) := by
  rfl

/-- The load loop on an open document, slot by slot. -/
theorem loadPagesLoop_open (E : Engine) (d : DocumentFile) (fromIndex : Int) (w : World)
    (hdoc : d.pdfDocument ≠ 0) (n : Nat) :
    (loadPagesLoop E (some d) fromIndex w n).1 =
        (List.range n).map (loadSlot E w d.pdfDocument fromIndex) ∧
    (loadPagesLoop E (some d) fromIndex w n).2.calls =
        w.calls ++ loadCallsBefore d.pdfDocument fromIndex n := by
  induction n with
  | zero => simp [loadPagesLoop, loadCallsBefore]
  | succ k ih =>
    obtain ⟨ih1, ih2⟩ := ih
    rw [loadPagesLoop_succ, loadPageInternal_open E d _ _ hdoc]
    constructor
    · simp only [ih1, ih2, List.range_succ, List.map_append, List.map_cons, List.map_nil,
        loadSlot]
    · simp only [ih2, loadCallsBefore_succ, List.append_assoc]

/-- The load loop without an open document: every slot fails and the engine is
not called. -/
theorem loadPagesLoop_closed (E : Engine) (doc : Option DocumentFile) (fromIndex : Int)
    (w : World) (hdoc : ∀ d, doc = some d → d.pdfDocument = 0) (n : Nat) :
    (loadPagesLoop E doc fromIndex w n).1 = List.replicate n (-1) ∧
    (loadPagesLoop E doc fromIndex w n).2.calls = w.calls := by
  induction n with
  | zero => simp [loadPagesLoop]
  | succ k ih =>
    obtain ⟨ih1, ih2⟩ := ih
    rw [loadPagesLoop_succ, loadPageInternal_closed E doc _ _ hdoc]
    constructor
    · simp only [ih1, List.replicate_succ']
    · simp only [ih2]

theorem loadPageInternal_thrown (E : Engine) (doc : Option DocumentFile) (pageIndex : Int)
    (w : World) :
    (loadPageInternal E doc pageIndex w).2.thrown =
      w.thrown ++ List.replicate ([(loadPageInternal E doc pageIndex w).1].count (-1))
        cannotLoadPage := by
  by_cases hdoc : ∀ d, doc = some d → d.pdfDocument = 0
  · rw [loadPageInternal_closed E doc _ _ hdoc]
    simp
  · push_neg at hdoc
    obtain ⟨d, rfl, hd⟩ := hdoc
    rw [loadPageInternal_open E d _ _ hd]
    by_cases hp : E.FPDF_LoadPage w.calls d.pdfDocument pageIndex = 0
    · simp [hp]
    · have hne : ¬ ((E.FPDF_LoadPage w.calls d.pdfDocument pageIndex : Int) = -1) := by omega
      simp [hp, hne]

/-- The load loop raises one `UnknownException` per failed slot. -/
theorem loadPagesLoop_thrown (E : Engine) (doc : Option DocumentFile) (fromIndex : Int)
    (w : World) (n : Nat) :
    (loadPagesLoop E doc fromIndex w n).2.thrown =
      w.thrown ++ List.replicate ((loadPagesLoop E doc fromIndex w n).1.count (-1))
        cannotLoadPage := by
  induction n with
  | zero => simp [loadPagesLoop]
  | succ k ih =>
    rw [loadPagesLoop_succ]
    simp only [loadPageInternal_thrown, ih, List.count_append, List.replicate_add,
      List.append_assoc]

theorem loadPagesLoop_length (E : Engine) (doc : Option DocumentFile) (fromIndex : Int)
    (w : World) (n : Nat) : (loadPagesLoop E doc fromIndex w n).1.length = n := by
  induction n with
  | zero => simp [loadPagesLoop]
  | succ k ih => rw [loadPagesLoop_succ]; simp [ih]

theorem wrapInt32_of_range (x : Int) (h0 : -2147483648 ≤ x) (h1 : x < 2147483648) :
    wrapInt32 x = x := by
  unfold wrapInt32
  omega

/-- A batch whose array length fits the `jint` range and the stack returns
what the load loop produced. -/
theorem nativeLoadPages_eq (stackSlots : Nat) (E : Engine) (doc : Option DocumentFile)
    (fromIndex toIndex : Int) (w : World) (h : fromIndex ≤ toIndex)
    (hint : toIndex - fromIndex + 1 < 2147483648)
    (hfit : toIndex - fromIndex + 1 ≤ stackSlots) :
    nativeLoadPages stackSlots E doc fromIndex toIndex w =
      some (some (loadPagesLoop E doc fromIndex w (toIndex - fromIndex + 1).toNat).1,
        (loadPagesLoop E doc fromIndex w (toIndex - fromIndex + 1).toNat).2) := by
  have hlt : ¬ toIndex < fromIndex := by omega
  have hd : wrapInt32 (toIndex - fromIndex) = toIndex - fromIndex :=
    wrapInt32_of_range _ (by omega) (by omega)
  have hl : wrapInt32 (toIndex - fromIndex + 1) = toIndex - fromIndex + 1 :=
    wrapInt32_of_range _ (by omega) (by omega)
  have hok : ¬ (toIndex - fromIndex + 1 < 0 ∨ (stackSlots : Int) < toIndex - fromIndex + 1) := by
    omega
  simp only [nativeLoadPages, hlt, if_false, hd, hl, hok]

/-- A batch that returns an array returns what some number of iterations of
the load loop produced. -/
theorem nativeLoadPages_some (stackSlots : Nat) (E : Engine) (doc : Option DocumentFile)
    (fromIndex toIndex : Int) (w w1 : World) (pages : List Int)
    (h : nativeLoadPages stackSlots E doc fromIndex toIndex w = some (some pages, w1)) :
    ∃ n, loadPagesLoop E doc fromIndex w n = (pages, w1) := by
  unfold nativeLoadPages at h
  by_cases hlt : toIndex < fromIndex
  · simp [hlt] at h
  · by_cases hbad : wrapInt32 (wrapInt32 (toIndex - fromIndex) + 1) < 0 ∨
        (stackSlots : Int) < wrapInt32 (wrapInt32 (toIndex - fromIndex) + 1)
    · simp [hlt, hbad] at h
    · simp only [hlt, if_false, hbad, Option.some.injEq, Prod.mk.injEq] at h
      exact ⟨_, Prod.ext h.1 h.2⟩

/-- The engine calls of a batch close: one close per element, in order. -/
theorem nativeClosePages_calls (pages : List Int) (w : World) :
    (nativeClosePages pages w).calls = w.calls ++ pages.map EngineCall.FPDF_ClosePage := by
  induction pages generalizing w with
  | nil => simp [nativeClosePages]
  | cons p rest ih =>
    have hstep : nativeClosePages (p :: rest) w = nativeClosePages rest (closePageInternal p w) := by
      simp [nativeClosePages]
    rw [hstep, ih]
    simp [closePageInternal, World.call]

/-! ## Lemmas on annotations -/

/-- With a rectangle that has not four components the operation ends right
after the page load. -/
theorem nativeAddTextAnnotation_bad_bounds (E : Engine) (docPtr : Option DocumentFile)
    (page_index : Int) (text_ : List Nat) (color_ bound_ : List Int) (w : World)
    (hlen : bound_.length ≠ 4) :
    nativeAddTextAnnotation E docPtr page_index text_ color_ bound_ w =
      (-1, (loadPageInternal E docPtr page_index w).2) := by
  by_cases hfail : (loadPageInternal E docPtr page_index w).1 = -1
  · simp [ nativeAddTextAnnotation, hfail]
  · rcases bound_ with _ | ⟨b0, _ | ⟨b1, _ | ⟨b2, _ | ⟨b3, _ | ⟨b4, rest⟩⟩⟩⟩⟩
    · simp [ nativeAddTextAnnotation, hfail]
    · simp [ nativeAddTextAnnotation, hfail]
    · simp [ nativeAddTextAnnotation, hfail]
    · simp [ nativeAddTextAnnotation, hfail]
    · simp at hlen
    · simp [ nativeAddTextAnnotation, hfail]

/-- The engine calls of a page load are at most the load itself. -/
theorem loadPageInternal_calls (E : Engine) (doc : Option DocumentFile) (pageIndex : Int)
    (w : World) :
    ∃ newCalls, (loadPageInternal E doc pageIndex w).2.calls = w.calls ++ newCalls ∧
      ∀ c ∈ newCalls, isMutation c = false := by
  by_cases hdoc : ∀ d, doc = some d → d.pdfDocument = 0
  · rw [loadPageInternal_closed E doc _ _ hdoc]
    exact ⟨[], by simp, by simp⟩
  · push_neg at hdoc
    obtain ⟨d, rfl, hd⟩ := hdoc
    rw [loadPageInternal_open E d _ _ hd]
    exact ⟨[EngineCall.FPDF_LoadPage d.pdfDocument pageIndex], rfl, by simp [isMutation]⟩

/-- The operation when the page loads, the rectangle has four components and
the save fails: it ends right after the save. -/
theorem nativeAddTextAnnotation_save_fails (E : Engine) (doc : DocumentFile)
    (page_index : Int) (text_ : List Nat) (color_ : List Int) (left top right bottom : Int)
    (w : World) (hdoc : doc.pdfDocument ≠ 0)
    (hload : E.FPDF_LoadPage w.calls doc.pdfDocument page_index ≠ 0)
    (hsave : E.FPDF_SaveAsCopy doc.pdfDocument FPDF_INCREMENTAL = false) :
    nativeAddTextAnnotation E (some doc) page_index text_ color_ [left, top, right, bottom] w =
      (-1, { w with
        calls := w.calls ++
          (protocolCallsBeforeReload doc.pdfDocument page_index
            (E.FPDF_LoadPage w.calls doc.pdfDocument page_index)
            (E.FPDFPage_CreateAnnot (E.FPDF_LoadPage w.calls doc.pdfDocument page_index)
              FPDF_ANNOT_TEXT)
            left top right bottom (annotationColour color_) text_).take 6 }) := by
  have hne : ¬ ((E.FPDF_LoadPage w.calls doc.pdfDocument page_index : Int) = -1) := by omega
  simp [ nativeAddTextAnnotation, loadPageInternal_open E doc _ _ hdoc, hload, hne, hsave,
    World.call, protocolCallsBeforeReload]

/-- The operation when the page loads, the rectangle has four components and
the save succeeds: what follows is decided by the reload. -/
theorem nativeAddTextAnnotation_saved (E : Engine) (doc : DocumentFile)
    (page_index : Int) (text_ : List Nat) (color_ : List Int) (left top right bottom : Int)
    (w : World) (hdoc : doc.pdfDocument ≠ 0)
    (hload : E.FPDF_LoadPage w.calls doc.pdfDocument page_index ≠ 0)
    (hsave : E.FPDF_SaveAsCopy doc.pdfDocument FPDF_INCREMENTAL = true) :
    nativeAddTextAnnotation E (some doc) page_index text_ color_ [left, top, right, bottom] w =
      if E.FPDF_LoadPage
          (w.calls ++ protocolCallsBeforeReload doc.pdfDocument page_index
            (E.FPDF_LoadPage w.calls doc.pdfDocument page_index)
            (E.FPDFPage_CreateAnnot (E.FPDF_LoadPage w.calls doc.pdfDocument page_index)
              FPDF_ANNOT_TEXT)
            left top right bottom (annotationColour color_) text_)
          doc.pdfDocument page_index = 0 then
        (-1, { w with
          calls := w.calls ++
            protocolCallsBeforeReload doc.pdfDocument page_index
              (E.FPDF_LoadPage w.calls doc.pdfDocument page_index)
              (E.FPDFPage_CreateAnnot (E.FPDF_LoadPage w.calls doc.pdfDocument page_index)
                FPDF_ANNOT_TEXT)
              left top right bottom (annotationColour color_) text_ ++
            [EngineCall.FPDF_LoadPage doc.pdfDocument page_index],
          thrown := w.thrown ++ [cannotLoadPage] })
      else
        ((E.FPDFPage_CreateAnnot (E.FPDF_LoadPage w.calls doc.pdfDocument page_index)
            FPDF_ANNOT_TEXT : Int),
          { w with
            calls := w.calls ++
              protocolCallsBeforeReload doc.pdfDocument page_index
                (E.FPDF_LoadPage w.calls doc.pdfDocument page_index)
                (E.FPDFPage_CreateAnnot (E.FPDF_LoadPage w.calls doc.pdfDocument page_index)
                  FPDF_ANNOT_TEXT)
                left top right bottom (annotationColour color_) text_ ++
              [EngineCall.FPDF_LoadPage doc.pdfDocument page_index,
                EngineCall.onAnnotationAdded page_index
                  (E.FPDF_LoadPage
                    (w.calls ++ protocolCallsBeforeReload doc.pdfDocument page_index
                      (E.FPDF_LoadPage w.calls doc.pdfDocument page_index)
                      (E.FPDFPage_CreateAnnot
                        (E.FPDF_LoadPage w.calls doc.pdfDocument page_index) FPDF_ANNOT_TEXT)
                      left top right bottom (annotationColour color_) text_)
                    doc.pdfDocument page_index)] }) := by
  have hne : ¬ ((E.FPDF_LoadPage w.calls doc.pdfDocument page_index : Int) = -1) := by omega
  split
  · rename_i hre
    simp [ nativeAddTextAnnotation, loadPageInternal_open E doc _ _ hdoc, hload, hne, hsave,
      World.call, protocolCallsBeforeReload, closePageInternal] at hre ⊢
    simp [hre]
  · rename_i hre
    have hne2 : ¬ ((E.FPDF_LoadPage
          (w.calls ++ protocolCallsBeforeReload doc.pdfDocument page_index
            (E.FPDF_LoadPage w.calls doc.pdfDocument page_index)
            (E.FPDFPage_CreateAnnot (E.FPDF_LoadPage w.calls doc.pdfDocument page_index)
              FPDF_ANNOT_TEXT)
            left top right bottom (annotationColour color_) text_)
          doc.pdfDocument page_index : Int) = -1) := by omega
    simp [ nativeAddTextAnnotation, loadPageInternal_open E doc _ _ hdoc, hload, hne, hsave,
      World.call, protocolCallsBeforeReload, closePageInternal] at hre hne2 ⊢
    simp [hre, hne2]

/-! ## Lemmas on the query transcoding -/

theorem lowByte_eq (u : Nat) : u &&& 0xff = u % 256 :=
  Nat.and_pow_two_sub_one_eq_mod u 8

theorem highByte_eq (u : Nat) (hu : u < 65536) : (u >>> 8) &&& 0xff = u / 256 := by
  have h := Nat.and_pow_two_sub_one_eq_mod (u >>> 8) 8
  have h2 : u >>> 8 = u / 256 := Nat.shiftRight_eq_div_pow u 8
  have h3 : (u >>> 8) &&& 0xff = (u >>> 8) % 256 := h
  rw [h3, h2]
  omega

theorem convertWideStringLoop_length (query : List Nat) :
    (convertWideStringLoop query).length = 2 * query.length := by
  induction query with
  | nil => rfl
  | cons u rest ih =>
    simp only [convertWideStringLoop, List.length_cons, ih]
    omega

/-- Bytes `2 * i` and `2 * i + 1` written by the loop are the two bytes of
code unit `i`, low byte first. -/
theorem convertWideStringLoop_unit (query : List Nat) (i u : Nat) (hi : query[i]? = some u) :
    (convertWideStringLoop query)[2 * i]? = some (u &&& 0xff) ∧
    (convertWideStringLoop query)[2 * i + 1]? = some ((u >>> 8) &&& 0xff) := by
  induction query generalizing i with
  | nil => simp at hi
  | cons v rest ih =>
    cases i with
    | zero =>
      simp only [List.getElem?_cons_zero, Option.some.injEq] at hi
      subst hi
      simp [convertWideStringLoop]
    | succ j =>
      simp only [List.getElem?_cons_succ] at hi
      obtain ⟨h1, h2⟩ := ih j hi
      have e1 : 2 * (j + 1) = (2 * j + 1) + 1 := by omega
      have e2 : 2 * (j + 1) + 1 = ((2 * j + 1) + 1) + 1 := by omega
      constructor
      · rw [e1]
        simp only [convertWideStringLoop, List.getElem?_cons_succ]
        exact h1
      · rw [e2]
        simp only [convertWideStringLoop, List.getElem?_cons_succ]
        exact h2

/-! ## Claims -/

/-- C1. Lifecycle guard invariant: from counter `0` with the engine not
initialised, after every finite sequence of acquire and release calls the
engine is initialised if and only if the counter is at least `1`; and whatever
call comes next, it calls the engine's initialisation exactly when it is an
acquire that finds the counter at `0`, its teardown exactly when it is a
release that brings the counter to `0`, and nothing otherwise. -/
theorem C1_guard_invariant (ops : List GuardOp) (next : GuardOp) :
    ((runGuard ops World.initial).libraryInitialized = true ↔
        1 ≤ (runGuard ops World.initial).sLibraryReferenceCount) ∧
    (runGuard (ops ++ [next]) World.initial).calls =
      (runGuard ops World.initial).calls ++
        (if next = GuardOp.acquire ∧ (runGuard ops World.initial).sLibraryReferenceCount = 0 then
          [EngineCall.FPDF_InitLibrary]
        else if next = GuardOp.release ∧
            (runGuard ops World.initial).sLibraryReferenceCount - 1 = 0 then
          [EngineCall.FPDF_DestroyLibrary]
        else []) := by
  refine ⟨runGuard_keeps_invariant ops World.initial (by simp [World.initial]), ?_⟩
  rw [runGuard_append]
  exact guardStep_calls (runGuard ops World.initial) next

/-- C2. Lifecycle balance of opening: for both open variants and every input,
the open fails (a plain number is returned, no document handle, one exception
raised) exactly when the source is empty or the engine gives no document, and
then the reference count is back at its value before the call on return; when
the open succeeds, the count is back at that value after `nativeCloseDocument`
on the returned handle. -/
theorem C2_open_close_balance (E : Engine) (fstat : Int → Option Nat) (fd : Int)
    (data : List Nat) (password : Option String) (w : World) :
    (OpenBalanced w (nativeOpenDocument E fstat fd password w) ∧
      ((getFileSize fstat fd = 0 ∨
          E.FPDF_LoadCustomDocument (getFileSize fstat fd) fd password = 0) ↔
        ∃ n, (nativeOpenDocument E fstat fd password w).1 = JLong.value n)) ∧
    (OpenBalanced w (nativeOpenMemDocument E data password w) ∧
      (E.FPDF_LoadMemDocument data data.length password = 0 ↔
        ∃ n, (nativeOpenMemDocument E data password w).1 = JLong.value n)) := by
  refine ⟨?_, ?_⟩
  · by_cases hlen : getFileSize fstat fd = 0
    · have hres : nativeOpenDocument E fstat fd password w =
          (JLong.value FPDF_ERR_FILE,
            jniThrowException "java/io/IOException" "Empty PDF file" w) := by
        simp [nativeOpenDocument, hlen]
      rw [hres]
      exact ⟨⟨rfl, _, rfl⟩, by simp [hlen]⟩
    · by_cases hdoc : E.FPDF_LoadCustomDocument (getFileSize fstat fd) fd password = 0
      · have hres : nativeOpenDocument E fstat fd password w =
            (JLong.value (-1),
              throwPdfiumException E.FPDF_GetLastError
                ((DocumentFile.delete { pdfDocument := 0 }
                  ((initLibraryIfNeed w).call
                    (EngineCall.FPDF_LoadCustomDocument (getFileSize fstat fd) fd password))).call
                  EngineCall.FPDF_GetLastError)) := by
          simp [nativeOpenDocument, hlen, hdoc, DocumentFile.new]
        rw [hres]
        exact ⟨failedOpen_balanced _ _ w, by simp [hdoc]⟩
      · have hres : nativeOpenDocument E fstat fd password w =
            (JLong.docFile
                { pdfDocument := E.FPDF_LoadCustomDocument (getFileSize fstat fd) fd password },
              (initLibraryIfNeed w).call
                (EngineCall.FPDF_LoadCustomDocument (getFileSize fstat fd) fd password)) := by
          simp [nativeOpenDocument, hlen, hdoc, DocumentFile.new]
        rw [hres]
        exact ⟨successfulOpen_balanced _ hdoc _ w, by simp [hlen, hdoc]⟩
  · by_cases hdoc : E.FPDF_LoadMemDocument data data.length password = 0
    · have hres : nativeOpenMemDocument E data password w =
          (JLong.value (-1),
            throwPdfiumException E.FPDF_GetLastError
              ((DocumentFile.delete { pdfDocument := 0 }
                ((initLibraryIfNeed w).call
                  (EngineCall.FPDF_LoadMemDocument data data.length password))).call
                EngineCall.FPDF_GetLastError)) := by
        simp [nativeOpenMemDocument, hdoc, DocumentFile.new]
      rw [hres]
      exact ⟨failedOpen_balanced _ _ w, by simp [hdoc]⟩
    · have hres : nativeOpenMemDocument E data password w =
          (JLong.docFile { pdfDocument := E.FPDF_LoadMemDocument data data.length password },
            (initLibraryIfNeed w).call
              (EngineCall.FPDF_LoadMemDocument data data.length password)) := by
        simp [nativeOpenMemDocument, hdoc, DocumentFile.new]
      rw [hres]
      exact ⟨successfulOpen_balanced _ hdoc _ w, by simp [hdoc]⟩

/-- C3. RGB565 bit-depth reduction rounds to nearest: for 8-bit `R`, `G`, `B`
the result of `rgb_to_565` is `2048 * r5 + 32 * g6 + b5`, where `r5` is within
less than one half of `31 * R / 255`, `g6` of `63 * G / 255` and `b5` of
`31 * B / 255` (so each is the nearest integer), `r5, b5 ≤ 31`, `g6 ≤ 63`, and
the three fields of the 16-bit result are exactly `r5`, `g6` and `b5`. -/
theorem C3_rgb_to_565_rounds_to_nearest (R G B : Nat) (hR : R < 256) (hG : G < 256)
    (hB : B < 256) :
    ∃ r5 g6 b5 : Nat,
      rgb_to_565 R G B = 2048 * r5 + 32 * g6 + b5 ∧
      2 * |(255 * r5 : Int) - 31 * R| < 255 ∧
      2 * |(255 * g6 : Int) - 63 * G| < 255 ∧
      2 * |(255 * b5 : Int) - 31 * B| < 255 ∧
      r5 ≤ 31 ∧ g6 ≤ 63 ∧ b5 ≤ 31 ∧
      red565 (rgb_to_565 R G B) = r5 ∧
      green565 (rgb_to_565 R G B) = g6 ∧
      blue565 (rgb_to_565 R G B) = b5 := by
  refine ⟨(62 * R + 255) / 510, (126 * G + 255) / 510, (62 * B + 255) / 510, ?_⟩
  have hr : (62 * R + 255) / 510 ≤ 31 := by omega
  have hg : (126 * G + 255) / 510 ≤ 63 := by omega
  have hb : (62 * B + 255) / 510 ≤ 31 := by omega
  rw [rgb_to_565_eq R G B hR hG hB]
  refine ⟨rfl, ?_, ?_, ?_, hr, hg, hb, ?_, ?_, ?_⟩
  · exact twice_abs_lt _ (by omega) (by omega)
  · exact twice_abs_lt _ (by omega) (by omega)
  · exact twice_abs_lt _ (by omega) (by omega)
  · exact red565_pack _ _ _ (by omega) (by omega)
  · exact green565_pack _ _ _ (by omega) (by omega)
  · exact blue565_pack _ _ _ (by omega)

/-- Witness of C3 at the colour (255, 128, 0). -/
theorem C3_rgb_to_565_rounds_to_nearest_witness :
    ∃ r5 g6 b5 : Nat,
      rgb_to_565 255 128 0 = 2048 * r5 + 32 * g6 + b5 ∧
      2 * |(255 * r5 : Int) - 31 * (255 : Nat)| < 255 ∧
      2 * |(255 * g6 : Int) - 63 * (128 : Nat)| < 255 ∧
      2 * |(255 * b5 : Int) - 31 * (0 : Nat)| < 255 ∧
      r5 ≤ 31 ∧ g6 ≤ 63 ∧ b5 ≤ 31 ∧
      red565 (rgb_to_565 255 128 0) = r5 ∧
      green565 (rgb_to_565 255 128 0) = g6 ∧
      blue565 (rgb_to_565 255 128 0) = b5 :=
  C3_rgb_to_565_rounds_to_nearest 255 128 0 (by decide) (by decide) (by decide)

/-- C4. RGB565 conversion preserves channel ordering: when the 8-bit colour
`a` is strictly brighter than the 8-bit colour `b` in every channel, each of
the red, green and blue fields of `rgb_to_565 a` is not less than the same
field of `rgb_to_565 b`. -/
theorem C4_rgb_to_565_preserves_order (Ra Ga Ba Rb Gb Bb : Nat)
    (hRa : Ra < 256) (hGa : Ga < 256) (hBa : Ba < 256)
    (hR : Rb < Ra) (hG : Gb < Ga) (hB : Bb < Ba) :
    red565 (rgb_to_565 Rb Gb Bb) ≤ red565 (rgb_to_565 Ra Ga Ba) ∧
    green565 (rgb_to_565 Rb Gb Bb) ≤ green565 (rgb_to_565 Ra Ga Ba) ∧
    blue565 (rgb_to_565 Rb Gb Bb) ≤ blue565 (rgb_to_565 Ra Ga Ba) := by
  rw [rgb_to_565_eq Ra Ga Ba hRa hGa hBa,
    rgb_to_565_eq Rb Gb Bb (by omega) (by omega) (by omega)]
  rw [red565_pack _ _ _ (by omega) (by omega), red565_pack _ _ _ (by omega) (by omega),
    green565_pack _ _ _ (by omega) (by omega), green565_pack _ _ _ (by omega) (by omega),
    blue565_pack _ _ _ (by omega), blue565_pack _ _ _ (by omega)]
  refine ⟨?_, ?_, ?_⟩ <;> omega

/-- Witness of C4 at the colours (200, 100, 50) and (199, 99, 49). -/
theorem C4_rgb_to_565_preserves_order_witness :
    red565 (rgb_to_565 199 99 49) ≤ red565 (rgb_to_565 200 100 50) ∧
    green565 (rgb_to_565 199 99 49) ≤ green565 (rgb_to_565 200 100 50) ∧
    blue565 (rgb_to_565 199 99 49) ≤ blue565 (rgb_to_565 200 100 50) :=
  C4_rgb_to_565_preserves_order 200 100 50 199 99 49 (by decide) (by decide) (by decide)
    (by decide) (by decide) (by decide)

/-- C5. Scanline conversion `rgbBitmapTo565`: when the destination row stride
is at least `2 * width` bytes, after the call the 16-bit destination pixel at
row `y`, column `x` equals `rgb_to_565` of the three bytes of the source pixel
at row `y`, column `x`, for every `y < height` and `x < width`; every
destination byte that belongs to no such pixel is unchanged; and no byte at or
beyond `stride * height` is written.  (This holds for every source stride, in
particular for one of at least `3 * width`.) -/
theorem C5_rgbBitmapTo565_converts_every_pixel (source dest : Memory) (sourceStride : Nat)
    (info : AndroidBitmapInfo) (hstride : 2 * info.width ≤ info.stride) :
    (∀ y x, y < info.height → x < info.width →
      readU16 (rgbBitmapTo565 source sourceStride dest info) (y * info.stride + 2 * x) =
        rgb_to_565 (source (y * sourceStride + 3 * x)) (source (y * sourceStride + 3 * x + 1))
          (source (y * sourceStride + 3 * x + 2))) ∧
    (∀ a, (∀ y x, y < info.height → x < info.width →
          a ≠ y * info.stride + 2 * x ∧ a ≠ y * info.stride + 2 * x + 1) →
      rgbBitmapTo565 source sourceStride dest info a = dest a) ∧
    (∀ a, info.stride * info.height ≤ a →
      rgbBitmapTo565 source sourceStride dest info a = dest a) := by
  refine ⟨?_, ?_, ?_⟩
  · intro y x hy hx
    obtain ⟨hlo, hhi⟩ :=
      convertLines_pixel source sourceStride info dest hstride info.height y x hy hx
    unfold readU16 rgbBitmapTo565
    rw [hlo, hhi]
    have hlt := rgb_to_565_lt (source (y * sourceStride + 3 * x))
      (source (y * sourceStride + 3 * x + 1)) (source (y * sourceStride + 3 * x + 2))
    omega
  · intro a ha
    apply convertLines_frame
    intro y hy
    by_contra hcon
    have h1 : y * info.stride ≤ a := by omega
    have h2 : a < y * info.stride + 2 * info.width := by omega
    have hx : (a - y * info.stride) / 2 < info.width := by omega
    have := ha y ((a - y * info.stride) / 2) hy hx
    omega
  · intro a ha
    apply convertLines_frame
    intro y hy
    have hrow := row_below info.stride y info.height hy
    have hcomm : info.stride * info.height = info.height * info.stride := Nat.mul_comm _ _
    right
    omega

/-- Witness of C5: a 2 x 2 bitmap with 4-byte rows, converted from a source
whose byte at offset `i` is `i`, into a zeroed destination. -/
theorem C5_rgbBitmapTo565_converts_every_pixel_witness :
    (∀ y x, y < 2 → x < 2 →
      readU16 (rgbBitmapTo565 (fun i => i) 6 (fun _ => 0)
          { width := 2, height := 2, stride := 4,
            format := AndroidBitmapFormat.ANDROID_BITMAP_FORMAT_RGB_565 }) (y * 4 + 2 * x) =
        rgb_to_565 (y * 6 + 3 * x) (y * 6 + 3 * x + 1) (y * 6 + 3 * x + 2)) ∧
    (∀ a, (∀ y x, y < 2 → x < 2 → a ≠ y * 4 + 2 * x ∧ a ≠ y * 4 + 2 * x + 1) →
      rgbBitmapTo565 (fun i => i) 6 (fun _ => 0)
          { width := 2, height := 2, stride := 4,
            format := AndroidBitmapFormat.ANDROID_BITMAP_FORMAT_RGB_565 } a = 0) ∧
    (∀ a, 4 * 2 ≤ a →
      rgbBitmapTo565 (fun i => i) 6 (fun _ => 0)
          { width := 2, height := 2, stride := 4,
            format := AndroidBitmapFormat.ANDROID_BITMAP_FORMAT_RGB_565 } a = 0) :=
  C5_rgbBitmapTo565_converts_every_pixel (fun i => i) (fun _ => 0) 6
    { width := 2, height := 2, stride := 4,
      format := AndroidBitmapFormat.ANDROID_BITMAP_FORMAT_RGB_565 } (by decide)

/-- C6. Render call sequence.  The surface path `renderPageInternal` and, for
a non-null page and a bitmap whose info is read, whose format is RGBA_8888 or
RGB_565 and whose pixels are locked, the bitmap path `nativeRenderPageBitmap`
make exactly these engine calls: the bitmap creation; then a gray fill of the
rectangle `(0, 0, canvasWidth, canvasHeight)` exactly when
`drawWidth < canvasWidth` or `drawHeight < canvasHeight`; then, on the RGB565
path only, the white fill; then one rasterizer call, with rotation `0` and
flags reverse-byte-order, or-ed with draw-annotations exactly when
`renderAnnot` is true. -/
theorem C6_render_call_sequence (E : Engine) (scratch : Memory) (pagePtr : Nat)
    (windowBuffer : ANativeWindow_Buffer) (canvasHorSize canvasVerSize : Int)
    (bmp : JavaBitmap) (info : AndroidBitmapInfo) (startX startY drawSizeHor drawSizeVer : Int)
    (renderAnnot : Bool) (w : World)
    (hpage : pagePtr ≠ 0) (hinfo : bmp.getInfo = some info) (hlock : bmp.lockPixels = true)
    (hfmt : info.format = AndroidBitmapFormat.ANDROID_BITMAP_FORMAT_RGBA_8888 ∨
      info.format = AndroidBitmapFormat.ANDROID_BITMAP_FORMAT_RGB_565) :
    (renderPageInternal E pagePtr windowBuffer startX startY canvasHorSize canvasVerSize
        drawSizeHor drawSizeVer renderAnnot w).1.calls =
      w.calls ++
        [EngineCall.FPDFBitmap_CreateEx canvasHorSize canvasVerSize
          FPDFBitmapFormat.FPDFBitmap_BGRA BufferId.windowBits (windowBuffer.stride * 4)] ++
        (if drawSizeHor < canvasHorSize ∨ drawSizeVer < canvasVerSize then
          [EngineCall.FPDFBitmap_FillRect 0 0 canvasHorSize canvasVerSize 0x848484FF]
        else []) ++
        [EngineCall.FPDF_RenderPageBitmap pagePtr startX startY drawSizeHor drawSizeVer 0
          (if renderAnnot then FPDF_REVERSE_BYTE_ORDER ||| FPDF_ANNOT
            else FPDF_REVERSE_BYTE_ORDER)] ∧
    (nativeRenderPageBitmap E scratch pagePtr (some bmp) startX startY drawSizeHor drawSizeVer
        renderAnnot w).1.calls =
      w.calls ++
        [if info.format = AndroidBitmapFormat.ANDROID_BITMAP_FORMAT_RGB_565 then
          EngineCall.FPDFBitmap_CreateEx info.width info.height FPDFBitmapFormat.FPDFBitmap_BGR
            BufferId.scratch (info.width * 3)
        else
          EngineCall.FPDFBitmap_CreateEx info.width info.height FPDFBitmapFormat.FPDFBitmap_BGRA
            BufferId.bitmapPixels info.stride] ++
        (if drawSizeHor < info.width ∨ drawSizeVer < info.height then
          [EngineCall.FPDFBitmap_FillRect 0 0 info.width info.height 0x848484FF]
        else []) ++
        (if info.format = AndroidBitmapFormat.ANDROID_BITMAP_FORMAT_RGB_565 then
          [EngineCall.FPDFBitmap_FillRect (if startX < 0 then 0 else startX)
            (if startY < 0 then 0 else startY)
            (if (info.width : Int) < drawSizeHor then info.width else drawSizeHor)
            (if (info.height : Int) < drawSizeVer then info.height else drawSizeVer) 0xFFFFFFFF]
        else []) ++
        [EngineCall.FPDF_RenderPageBitmap pagePtr startX startY drawSizeHor drawSizeVer 0
          (if renderAnnot then FPDF_REVERSE_BYTE_ORDER ||| FPDF_ANNOT
            else FPDF_REVERSE_BYTE_ORDER)] := by
  constructor
  · by_cases hsmall : drawSizeHor < canvasHorSize ∨ drawSizeVer < canvasVerSize <;>
      simp [renderPageInternal, hsmall, FPDFBitmap_CreateEx, FPDF_RenderPageBitmap,
        FPDFBitmap_FillRect, World.call]
  · rcases hfmt with hfmt | hfmt
    · rw [nativeRenderPageBitmap_calls_rgba E scratch pagePtr bmp info startX startY drawSizeHor
        drawSizeVer renderAnnot w hpage hinfo hlock hfmt]
      simp [hfmt]
    · rw [nativeRenderPageBitmap_calls_565 E scratch pagePtr bmp info startX startY drawSizeHor
        drawSizeVer renderAnnot w hpage hinfo hlock hfmt]
      simp [hfmt]

/-- Witness of C6: page 1 drawn with annotations at (0, 0), size 5 x 5, on a
10 x 10 canvas, for a window buffer and for the sample RGB565 bitmap. -/
theorem C6_render_call_sequence_witness :
    (renderPageInternal idleEngine 1 ⟨10, 10, 10, fun _ => 0⟩ 0 0 10 10 5 5 true
        World.initial).1.calls =
      [EngineCall.FPDFBitmap_CreateEx 10 10 FPDFBitmapFormat.FPDFBitmap_BGRA
          BufferId.windowBits 40,
        EngineCall.FPDFBitmap_FillRect 0 0 10 10 0x848484FF,
        EngineCall.FPDF_RenderPageBitmap 1 0 0 5 5 0 17] ∧
    (nativeRenderPageBitmap idleEngine (fun _ => 0) 1 (some sampleBitmap565) 0 0 5 5 true
        World.initial).1.calls =
      [EngineCall.FPDFBitmap_CreateEx 10 10 FPDFBitmapFormat.FPDFBitmap_BGR
          BufferId.scratch 30,
        EngineCall.FPDFBitmap_FillRect 0 0 10 10 0x848484FF,
        EngineCall.FPDFBitmap_FillRect 0 0 5 5 0xFFFFFFFF,
        EngineCall.FPDF_RenderPageBitmap 1 0 0 5 5 0 17] := by
  have h := C6_render_call_sequence idleEngine (fun _ => 0) 1 ⟨10, 10, 10, fun _ => 0⟩ 10 10
    sampleBitmap565 ⟨10, 10, 20, AndroidBitmapFormat.ANDROID_BITMAP_FORMAT_RGB_565⟩ 0 0 5 5 true
    World.initial (by decide) rfl rfl (Or.inr rfl)
  exact h

/-- C7, as stated, fails on the RGB565 path: on a 2 x 1 canvas with a 1 x 1
draw area at the origin and a rasterizer that paints nothing, pixel (1, 0)
lies outside the draw rectangle and ends as 64560 (the converted gray fill),
not as white (65535). -/
theorem C7_margin_white_counterexample :
    PaintsInsideDrawRect idleEngine ∧ ¬ inRect 0 0 1 1 1 0 ∧
    (nativeRenderPageBitmap idleEngine (fun _ => 0) 1 (some tinyBitmap565) 0 0 1 1 false
        World.initial).2.map (fun b => readU16 b.pixels (0 * 4 + 2 * 1)) = some 64560 ∧
    (64560 : Nat) ≠ 0xFFFF := by
  refine ⟨idleEngine_paints_inside, by decide, by rfl, by decide⟩

/-- C7, amended. Margin colour after a partial render: for a bitmap render
call whose draw size is smaller than the canvas size, with a rasterizer that
paints only inside the draw rectangle, every canvas pixel outside the draw
rectangle holds the four bytes of the gray fill constant on the RGBA path; on
the RGB565 path it is white where it lies inside the white-fill rectangle
(origin with negative coordinates replaced by `0`, size the minimum of canvas
and draw size) and is the RGB565 conversion of the gray-filled pixel
everywhere else. -/
theorem C7_margin_colour_after_partial_render (E : Engine) (scratch : Memory) (pagePtr : Nat)
    (bmp : JavaBitmap) (info : AndroidBitmapInfo) (startX startY drawSizeHor drawSizeVer : Int)
    (renderAnnot : Bool) (w : World) (hpaint : PaintsInsideDrawRect E)
    (hpage : pagePtr ≠ 0) (hinfo : bmp.getInfo = some info) (hlock : bmp.lockPixels = true)
    (hsmall : drawSizeHor < info.width ∨ drawSizeVer < info.height) :
    (info.format = AndroidBitmapFormat.ANDROID_BITMAP_FORMAT_RGBA_8888 →
      4 * info.width ≤ info.stride →
      ∃ b, (nativeRenderPageBitmap E scratch pagePtr (some bmp) startX startY drawSizeHor
          drawSizeVer renderAnnot w).2 = some b ∧
        ∀ x y k, x < info.width → y < info.height → k < 4 →
          ¬ inRect startX startY drawSizeHor drawSizeVer x y →
          b.pixels (y * info.stride + 4 * x + k) = colorByte 0x848484FF k) ∧
    (info.format = AndroidBitmapFormat.ANDROID_BITMAP_FORMAT_RGB_565 →
      2 * info.width ≤ info.stride →
      ∃ b, (nativeRenderPageBitmap E scratch pagePtr (some bmp) startX startY drawSizeHor
          drawSizeVer renderAnnot w).2 = some b ∧
        ∀ x y, x < info.width → y < info.height →
          ¬ inRect startX startY drawSizeHor drawSizeVer x y →
          readU16 b.pixels (y * info.stride + 2 * x) =
            if inRect (if startX < 0 then 0 else startX) (if startY < 0 then 0 else startY)
                (min (info.width : Int) drawSizeHor) (min (info.height : Int) drawSizeVer) x y
            then 0xFFFF
            else rgb_to_565 (colorByte 0x848484FF 0) (colorByte 0x848484FF 1)
              (colorByte 0x848484FF 2)) := by
  have hmin : ∀ a b : Int, (if a < b then a else b) = min a b := by
    intro a b
    by_cases hab : a < b
    · simp [hab, min_eq_left (le_of_lt hab)]
    · simp [hab, min_eq_right (not_lt.mp hab)]
  constructor
  · intro hfmt hstride
    refine ⟨_, nativeRenderPageBitmap_pixels_rgba E scratch pagePtr bmp info startX startY
      drawSizeHor drawSizeVer renderAnnot w hpage hinfo hlock hfmt hsmall, ?_⟩
    intro x y k hx hy hk hout
    have hxi : (x : Int) < info.width := by exact_mod_cast hx
    have hyi : (y : Int) < info.height := by exact_mod_cast hy
    have h := margin_byte_gray E hpaint
      ⟨info.width, info.height, FPDFBitmapFormat.FPDFBitmap_BGRA, BufferId.bitmapPixels,
        info.stride⟩
      pagePtr startX startY drawSizeHor drawSizeVer
      (if renderAnnot then FPDF_REVERSE_BYTE_ORDER ||| FPDF_ANNOT else FPDF_REVERSE_BYTE_ORDER)
      bmp.pixels x y k hxi hyi hk
      (by simp only [bytesPerPixel, Int.toNat_ofNat]; omega) hout
    have haddr : pixelAddr ⟨info.width, info.height, FPDFBitmapFormat.FPDFBitmap_BGRA,
        BufferId.bitmapPixels, info.stride⟩ x y k = y * info.stride + 4 * x + k := by
      simp only [pixelAddr, bytesPerPixel, Int.toNat_ofNat]
      omega
    rw [haddr] at h
    exact h
  · intro hfmt hstride
    refine ⟨_, nativeRenderPageBitmap_pixels_565 E scratch pagePtr bmp info startX startY
      drawSizeHor drawSizeVer renderAnnot w hpage hinfo hlock hfmt hsmall, ?_⟩
    intro x y hx hy hout
    rw [← hmin, ← hmin]
    have hxi : (x : Int) < info.width := by exact_mod_cast hx
    have hyi : (y : Int) < info.height := by exact_mod_cast hy
    have hnat : ((info.width : Int) * 3).toNat = info.width * 3 := by omega
    have hbyte : ∀ k, k < 3 →
        E.FPDF_RenderPageBitmap
          ⟨info.width, info.height, FPDFBitmapFormat.FPDFBitmap_BGR, BufferId.scratch,
            info.width * 3⟩
          pagePtr startX startY drawSizeHor drawSizeVer 0
          (if renderAnnot then FPDF_REVERSE_BYTE_ORDER ||| FPDF_ANNOT
            else FPDF_REVERSE_BYTE_ORDER)
          (fillRectEffect
            ⟨info.width, info.height, FPDFBitmapFormat.FPDFBitmap_BGR, BufferId.scratch,
              info.width * 3⟩
            (if startX < 0 then 0 else startX) (if startY < 0 then 0 else startY)
            (if (info.width : Int) < drawSizeHor then info.width else drawSizeHor)
            (if (info.height : Int) < drawSizeVer then info.height else drawSizeVer)
            0xFFFFFFFF
            (fillRectEffect
              ⟨info.width, info.height, FPDFBitmapFormat.FPDFBitmap_BGR, BufferId.scratch,
                info.width * 3⟩
              0 0 info.width info.height 0x848484FF scratch))
          (y * (info.width * 3) + 3 * x + k) =
        if inRect (if startX < 0 then 0 else startX) (if startY < 0 then 0 else startY)
            (if (info.width : Int) < drawSizeHor then info.width else drawSizeHor)
            (if (info.height : Int) < drawSizeVer then info.height else drawSizeVer) x y
        then colorByte 0xFFFFFFFF k else colorByte 0x848484FF k := by
      intro k hk
      have h := margin_byte_white_over_gray E hpaint
        ⟨info.width, info.height, FPDFBitmapFormat.FPDFBitmap_BGR, BufferId.scratch,
          info.width * 3⟩
        pagePtr startX startY drawSizeHor drawSizeVer
        (if renderAnnot then FPDF_REVERSE_BYTE_ORDER ||| FPDF_ANNOT
          else FPDF_REVERSE_BYTE_ORDER)
        (if startX < 0 then 0 else startX) (if startY < 0 then 0 else startY)
        (if (info.width : Int) < drawSizeHor then info.width else drawSizeHor)
        (if (info.height : Int) < drawSizeVer then info.height else drawSizeVer)
        scratch x y k hxi hyi hk
        (by simp only [bytesPerPixel, hnat]; omega) hout
      have haddr : pixelAddr ⟨info.width, info.height, FPDFBitmapFormat.FPDFBitmap_BGR,
          BufferId.scratch, info.width * 3⟩ x y k = y * (info.width * 3) + 3 * x + k := by
        simp only [pixelAddr, bytesPerPixel, hnat]
        omega
      rw [haddr] at h
      exact h
    have h0 := hbyte 0 (by omega)
    have h1 := hbyte 1 (by omega)
    have h2 := hbyte 2 (by omega)
    rw [Nat.add_zero] at h0
    show readU16 (rgbBitmapTo565 _ _ _ _) _ = _
    rw [rgbBitmapTo565_readU16 _ _ _ _ hstride x y hx hy, h0, h1, h2]
    by_cases hin : inRect (if startX < 0 then 0 else startX) (if startY < 0 then 0 else startY)
        (if (info.width : Int) < drawSizeHor then info.width else drawSizeHor)
        (if (info.height : Int) < drawSizeVer then info.height else drawSizeVer) x y
    · simp only [hin, if_true]
      decide
    · simp only [hin, if_false]

/-- Witness of the amended C7 on the 2 x 1 RGB565 bitmap with a 1 x 1 draw area. -/
theorem C7_margin_colour_after_partial_render_witness :
    ∃ b, (nativeRenderPageBitmap idleEngine (fun _ => 0) 1 (some tinyBitmap565) 0 0 1 1 false
        World.initial).2 = some b ∧
      ∀ x y, x < 2 → y < 1 → ¬ inRect 0 0 1 1 x y →
        readU16 b.pixels (y * 4 + 2 * x) =
          if inRect 0 0 1 1 x y then 0xFFFF
          else rgb_to_565 (colorByte 0x848484FF 0) (colorByte 0x848484FF 1)
            (colorByte 0x848484FF 2) :=
  (C7_margin_colour_after_partial_render idleEngine (fun _ => 0) 1 tinyBitmap565
    ⟨2, 1, 4, AndroidBitmapFormat.ANDROID_BITMAP_FORMAT_RGB_565⟩ 0 0 1 1 false World.initial
    idleEngine_paints_inside (by decide) rfl rfl (by decide)).2 rfl (by decide)

/-- C8, as stated, fails: a render call on an RGBA_4444 bitmap returns without
any exception raised, so no UnsupportedFormat error reaches the caller. -/
theorem C8_unsupported_format_counterexample :
    (nativeRenderPageBitmap idleEngine (fun _ => 0) 1 (some sampleBitmap4444) 0 0 5 5 false
      World.initial).1.thrown = [] := by
  rfl

/-- C8, amended. Unsupported destination format: a bitmap render call whose
destination format is neither RGBA_8888 nor RGB_565 returns without raising
any exception and without any engine call, and leaves the destination bitmap
as it was: the world and the bitmap after the call are those before it. -/
theorem C8_unsupported_format_is_silent_noop (E : Engine) (scratch : Memory) (pagePtr : Nat)
    (bmp : JavaBitmap) (info : AndroidBitmapInfo) (startX startY drawSizeHor drawSizeVer : Int)
    (renderAnnot : Bool) (w : World) (hinfo : bmp.getInfo = some info)
    (hfmt : info.format ≠ AndroidBitmapFormat.ANDROID_BITMAP_FORMAT_RGBA_8888 ∧
      info.format ≠ AndroidBitmapFormat.ANDROID_BITMAP_FORMAT_RGB_565) :
    nativeRenderPageBitmap E scratch pagePtr (some bmp) startX startY drawSizeHor drawSizeVer
      renderAnnot w = (w, some bmp) := by
  by_cases hpage : pagePtr = 0
  · simp [nativeRenderPageBitmap, hpage]
  · simp [nativeRenderPageBitmap, hpage, hinfo, hfmt.1, hfmt.2]

/-- Witness of the amended C8 on the sample RGBA_4444 bitmap. -/
theorem C8_unsupported_format_is_silent_noop_witness :
    nativeRenderPageBitmap idleEngine (fun _ => 0) 1 (some sampleBitmap4444) 0 0 5 5 false
      World.initial = (World.initial, some sampleBitmap4444) :=
  C8_unsupported_format_is_silent_noop idleEngine (fun _ => 0) 1 sampleBitmap4444
    ⟨10, 10, 20, AndroidBitmapFormat.ANDROID_BITMAP_FORMAT_RGBA_4444⟩ 0 0 5 5 false
    World.initial rfl (by decide)

/-- C9, as stated, fails: with origin `x = 20` on a canvas 10 pixels wide (an
origin outside the canvas), the white fill is issued at `x = 20`, not at `0`. -/
theorem C9_origin_clamping_counterexample :
    (nativeRenderPageBitmap idleEngine (fun _ => 0) 1 (some sampleBitmap565) 20 0 5 5 false
        World.initial).1.calls =
      [EngineCall.FPDFBitmap_CreateEx 10 10 FPDFBitmapFormat.FPDFBitmap_BGR
          BufferId.scratch 30,
        EngineCall.FPDFBitmap_FillRect 0 0 10 10 0x848484FF,
        EngineCall.FPDFBitmap_FillRect 20 0 5 5 0xFFFFFFFF,
        EngineCall.FPDF_RenderPageBitmap 1 20 0 5 5 0 16] ∧
    EngineCall.FPDFBitmap_FillRect 0 0 5 5 0xFFFFFFFF ∉
      (nativeRenderPageBitmap idleEngine (fun _ => 0) 1 (some sampleBitmap565) 20 0 5 5 false
        World.initial).1.calls := by
  decide

/-- C9, amended. Origin clamping in the RGB565 path: each origin coordinate
that is negative is replaced by `0` when computing the white-fill rectangle,
and every other coordinate is kept (also one at or beyond the canvas edge);
the size of that rectangle is the minimum of canvas and draw size in each
dimension; the rasterizer call that follows receives `startX`, `startY`,
`drawSizeHor` and `drawSizeVer` exactly as supplied. -/
theorem C9_origin_clamping_negative_only (E : Engine) (scratch : Memory) (pagePtr : Nat)
    (bmp : JavaBitmap) (info : AndroidBitmapInfo) (startX startY drawSizeHor drawSizeVer : Int)
    (renderAnnot : Bool) (w : World)
    (hpage : pagePtr ≠ 0) (hinfo : bmp.getInfo = some info) (hlock : bmp.lockPixels = true)
    (hfmt : info.format = AndroidBitmapFormat.ANDROID_BITMAP_FORMAT_RGB_565) :
    ∃ pre flags,
      (nativeRenderPageBitmap E scratch pagePtr (some bmp) startX startY drawSizeHor drawSizeVer
          renderAnnot w).1.calls =
        pre ++
          [EngineCall.FPDFBitmap_FillRect (if startX < 0 then 0 else startX)
              (if startY < 0 then 0 else startY)
              (min (info.width : Int) drawSizeHor) (min (info.height : Int) drawSizeVer)
              0xFFFFFFFF,
            EngineCall.FPDF_RenderPageBitmap pagePtr startX startY drawSizeHor drawSizeVer 0
              flags] := by
  refine ⟨w.calls ++
      [EngineCall.FPDFBitmap_CreateEx info.width info.height FPDFBitmapFormat.FPDFBitmap_BGR
        BufferId.scratch (info.width * 3)] ++
      (if drawSizeHor < info.width ∨ drawSizeVer < info.height then
        [EngineCall.FPDFBitmap_FillRect 0 0 info.width info.height 0x848484FF]
      else []),
    (if renderAnnot then FPDF_REVERSE_BYTE_ORDER ||| FPDF_ANNOT else FPDF_REVERSE_BYTE_ORDER),
    ?_⟩
  rw [nativeRenderPageBitmap_calls_565 E scratch pagePtr bmp info startX startY drawSizeHor
    drawSizeVer renderAnnot w hpage hinfo hlock hfmt]
  have hmin : ∀ a b : Int, (if a < b then a else b) = min a b := by
    intro a b
    by_cases hab : a < b
    · simp [hab, min_eq_left (le_of_lt hab)]
    · simp [hab, min_eq_right (not_lt.mp hab)]
  rw [hmin, hmin]

/-- Witness of the amended C9 on the sample RGB565 bitmap with origin (-3, 20). -/
theorem C9_origin_clamping_negative_only_witness :
    ∃ pre flags,
      (nativeRenderPageBitmap idleEngine (fun _ => 0) 1 (some sampleBitmap565) (-3) 20 5 5 false
          World.initial).1.calls =
        pre ++
          [EngineCall.FPDFBitmap_FillRect 0 20 5 5 0xFFFFFFFF,
            EngineCall.FPDF_RenderPageBitmap 1 (-3) 20 5 5 0 flags] :=
  C9_origin_clamping_negative_only idleEngine (fun _ => 0) 1 sampleBitmap565
    ⟨10, 10, 20, AndroidBitmapFormat.ANDROID_BITMAP_FORMAT_RGB_565⟩ (-3) 20 5 5 false
    World.initial (by decide) rfl rfl rfl

/-- C10, evaluated where it fails: loading page index `1` of a one-page
document returns `-1` after raising `UnknownException` twice ("cannot load
page", then "No Error"); no `PageNotFoundException` is raised. -/
theorem C10_loadPage_out_of_range_raises_unknown :
    nativeLoadPage onePageEngine (some { pdfDocument := 5 }) 1 World.initial =
      (-1,
        { sLibraryReferenceCount := 0, libraryInitialized := false,
          calls := [EngineCall.FPDF_LoadPage 5 1, EngineCall.FPDF_GetLastError],
          thrown :=
            [{ className := "com/harissk/pdfium/exception/UnknownException",
               message := "cannot load page" },
             { className := "com/harissk/pdfium/exception/UnknownException",
               message := "No Error" }] }) := by
  rfl

/-- C11, as stated, fails: for the full `jint` range the 32-bit length wraps
to `0` and an empty array is returned instead of `2 ^ 32` entries; a range of
two million indices does not fit a stack of 1024 entries and the call has no
result; and on the range `[0, 1]` of a one-page document the failed slot is
not only recorded as `-1` but also raised as an `UnknownException`. -/
theorem C11_loadPages_range_counterexample :
    nativeLoadPages 1024 onePageEngine (some { pdfDocument := 5 }) (-2147483648) 2147483647
        World.initial = some (some [], World.initial) ∧
    nativeLoadPages 1024 onePageEngine (some { pdfDocument := 5 }) 0 2000000
        World.initial = none ∧
    nativeLoadPages 1024 onePageEngine (some { pdfDocument := 5 }) 0 1 World.initial =
      some (some [77, -1],
        { World.initial with
          calls := [EngineCall.FPDF_LoadPage 5 0, EngineCall.FPDF_LoadPage 5 1],
          thrown :=
            [{ className := "com/harissk/pdfium/exception/UnknownException",
               message := "cannot load page" }] }) := by
  refine ⟨?_, ?_, ?_⟩ <;> decide

/-- C11, amended. Batch page load shape: for `fromIndex ≤ toIndex` whose entry
count `toIndex - fromIndex + 1` is below `2 ^ 31` and fits the stack array,
`nativeLoadPages` returns an array of exactly `toIndex - fromIndex + 1`
entries.  On an open document entry `i` is the result of loading page
`fromIndex + i` (the page, or `-1` when the engine gives none), and the engine
is asked for every index of the range in ascending order, whatever the earlier
results.  Without an open document every entry is `-1`.  A failed slot is
recorded as `-1` in its own slot and also raises one `UnknownException`. -/
theorem C11_loadPages_one_entry_per_index (stackSlots : Nat) (E : Engine)
    (doc : Option DocumentFile) (fromIndex toIndex : Int) (w : World)
    (h : fromIndex ≤ toIndex) (hint : toIndex - fromIndex + 1 < 2147483648)
    (hfit : toIndex - fromIndex + 1 ≤ stackSlots) :
    ∃ pages w1,
      nativeLoadPages stackSlots E doc fromIndex toIndex w = some (some pages, w1) ∧
      pages.length = (toIndex - fromIndex + 1).toNat ∧
      (∀ d, doc = some d → d.pdfDocument ≠ 0 →
        pages = (List.range (toIndex - fromIndex + 1).toNat).map
            (loadSlot E w d.pdfDocument fromIndex) ∧
        w1.calls =
          w.calls ++ loadCallsBefore d.pdfDocument fromIndex (toIndex - fromIndex + 1).toNat) ∧
      ((∀ d, doc = some d → d.pdfDocument = 0) →
        pages = List.replicate (toIndex - fromIndex + 1).toNat (-1) ∧
        w1.calls = w.calls) ∧
      w1.thrown = w.thrown ++ List.replicate (pages.count (-1)) cannotLoadPage := by
  refine ⟨_, _, nativeLoadPages_eq stackSlots E doc fromIndex toIndex w h hint hfit,
    loadPagesLoop_length _ _ _ _ _, ?_, ?_, loadPagesLoop_thrown _ _ _ _ _⟩
  · intro d hd hopen
    subst hd
    exact loadPagesLoop_open E d fromIndex w hopen _
  · intro hclosed
    exact loadPagesLoop_closed E doc fromIndex w hclosed _

/-- Witness of the amended C11: the range `[0, 2]` on a one-page document,
with room for 1024 entries on the stack, gives the three entries `77, -1, -1`
after three engine loads in ascending order. -/
theorem C11_loadPages_one_entry_per_index_witness :
    ∃ pages w1,
      nativeLoadPages 1024 onePageEngine (some { pdfDocument := 5 }) 0 2 World.initial =
        some (some pages, w1) ∧
      pages.length = 3 ∧
      pages = [77, -1, -1] ∧
      w1.calls =
        [EngineCall.FPDF_LoadPage 5 0, EngineCall.FPDF_LoadPage 5 1,
          EngineCall.FPDF_LoadPage 5 2] := by
  obtain ⟨pages, w1, h1, h2, h3, _, _⟩ :=
    C11_loadPages_one_entry_per_index 1024 onePageEngine (some { pdfDocument := 5 }) 0 2
      World.initial (by decide) (by decide) (by decide)
  obtain ⟨h4, h5⟩ := h3 { pdfDocument := 5 } rfl (by decide)
  refine ⟨pages, w1, h1, h2, ?_, ?_⟩
  · rw [h4]
    decide
  · rw [h5]
    decide

/-- C12, as stated, fails: the one page handle obtained from `nativeLoadPages`
on the range `[0, 0]` is released by the engine twice when `nativeClosePages`
is applied to the list twice. -/
theorem C12_close_pages_twice_counterexample :
    nativeLoadPages 1024 onePageEngine (some { pdfDocument := 5 }) 0 0 World.initial =
      some (some [77], { World.initial with calls := [EngineCall.FPDF_LoadPage 5 0] }) ∧
    (nativeClosePages [77] (nativeClosePages [77]
      { World.initial with calls := [EngineCall.FPDF_LoadPage 5 0] })).calls =
      [EngineCall.FPDF_LoadPage 5 0, EngineCall.FPDF_ClosePage 77,
        EngineCall.FPDF_ClosePage 77] := by
  decide

/-- C12, amended. Batch close is not idempotent: each application of
`nativeClosePages` to a list passes every element to the engine's close-page
once, in list order, so applying it to the same list a second time releases
every page handle a second time. -/
theorem C12_close_pages_twice_releases_twice (pages : List Int) (w : World) :
    (nativeClosePages pages (nativeClosePages pages w)).calls =
      w.calls ++ pages.map EngineCall.FPDF_ClosePage ++ pages.map EngineCall.FPDF_ClosePage := by
  rw [nativeClosePages_calls, nativeClosePages_calls]

/-- C13. Zero-length descriptor source: when the reported length of the file
descriptor is zero, or the size query fails, `nativeOpenDocument` fails with
the empty-file error (`java/io/IOException`, "Empty PDF file") and does nothing
else: the reference count, the engine state and the trace of engine calls are
those before the call, so the guard is not acquired and the engine is not
touched. -/
theorem C13_open_empty_descriptor (E : Engine) (fstat : Int → Option Nat) (fd : Int)
    (password : Option String) (w : World) (hempty : fstat fd = none ∨ fstat fd = some 0) :
    nativeOpenDocument E fstat fd password w =
      (JLong.value FPDF_ERR_FILE,
        { w with
          thrown := w.thrown ++
            [{ className := "java/io/IOException", message := "Empty PDF file" }] }) := by
  have hlen : getFileSize fstat fd = 0 := by
    rcases hempty with h | h <;> simp [getFileSize, h]
  simp [nativeOpenDocument, hlen, jniThrowException]

/-- Witness of C13: a descriptor whose size query fails, at process start. -/
theorem C13_open_empty_descriptor_witness :
    nativeOpenDocument idleEngine (fun _ => none) 3 none World.initial =
      (JLong.value FPDF_ERR_FILE,
        { World.initial with
          thrown := World.initial.thrown ++
            [{ className := "java/io/IOException", message := "Empty PDF file" }] }) :=
  C13_open_empty_descriptor idleEngine (fun _ => none) 3 none World.initial (Or.inl rfl)

/-- C14, evaluated where it fails: opening an empty byte array at process
start acquires the guard (the engine is initialised), hands the empty data to
the engine's open-by-memory call, and only after the engine's refusal releases
the guard and raises the exception classified from the engine's error code;
no empty-file error is raised. -/
theorem C14_open_empty_buffer_reaches_engine :
    nativeOpenMemDocument formatErrorEngine [] none World.initial =
      (JLong.value (-1),
        { sLibraryReferenceCount := 0, libraryInitialized := false,
          calls := [EngineCall.FPDF_InitLibrary, EngineCall.FPDF_LoadMemDocument [] 0 none,
            EngineCall.FPDF_DestroyLibrary, EngineCall.FPDF_GetLastError],
          thrown :=
            [{ className := "com/harissk/pdfium/exception/InvalidFormatException",
               message := "The provided file is not a valid PDF document" }] }) := by
  rfl

/-- C15, evaluated where it fails: a positioned read that returns 3 of the 10
requested bytes is reported as success (`1`). -/
theorem C15_getBlock_short_read_is_success :
    getBlock (fun _ _ _ => 3) 4 0 10 = 1 := by
  rfl

/-- C16, as stated, fails: code 7 is raised as `FileNotFoundException`, the
same exception class as code 2, not as a kind of its own. -/
theorem C16_code_seven_counterexample :
    lastThrownClass (throwPdfiumException 7 World.initial) =
      some "com/harissk/pdfium/exception/FileNotFoundException" ∧
    lastThrownClass (throwPdfiumException 2 World.initial) =
      some "com/harissk/pdfium/exception/FileNotFoundException" := by
  constructor <;> rfl

/-- C16, amended. Error classifier mapping: `throwPdfiumException` raises
exactly one exception, of class `UnknownException`, `FileNotFoundException`,
`InvalidFormatException`, `IncorrectPasswordException`,
`UnsupportedSecurityException`, `PageNotFoundException` for the codes 1, 2, 3,
4, 5, 6 respectively, of class `FileNotFoundException` (with the message
"File is Empty") for code 7, and of class `UnknownException` for every other
code, `0` included. -/
theorem C16_error_classifier (w : World) (other : Int) (hother : other < 1 ∨ 7 < other) :
    lastThrownClass (throwPdfiumException 1 w) =
      some "com/harissk/pdfium/exception/UnknownException" ∧
    lastThrownClass (throwPdfiumException 2 w) =
      some "com/harissk/pdfium/exception/FileNotFoundException" ∧
    lastThrownClass (throwPdfiumException 3 w) =
      some "com/harissk/pdfium/exception/InvalidFormatException" ∧
    lastThrownClass (throwPdfiumException 4 w) =
      some "com/harissk/pdfium/exception/IncorrectPasswordException" ∧
    lastThrownClass (throwPdfiumException 5 w) =
      some "com/harissk/pdfium/exception/UnsupportedSecurityException" ∧
    lastThrownClass (throwPdfiumException 6 w) =
      some "com/harissk/pdfium/exception/PageNotFoundException" ∧
    (throwPdfiumException 7 w).thrown = w.thrown ++
      [{ className := "com/harissk/pdfium/exception/FileNotFoundException",
         message := "File is Empty" }] ∧
    lastThrownClass (throwPdfiumException other w) =
      some "com/harissk/pdfium/exception/UnknownException" ∧
    (∀ errorNum, (throwPdfiumException errorNum w).thrown.length = w.thrown.length + 1) := by
  have h1 : other ≠ 1 := by omega
  have h2 : other ≠ 2 := by omega
  have h3 : other ≠ 3 := by omega
  have h4 : other ≠ 4 := by omega
  have h5 : other ≠ 5 := by omega
  have h6 : other ≠ 6 := by omega
  have h7 : other ≠ 7 := by omega
  refine ⟨?_, ?_, ?_, ?_, ?_, ?_, ?_, ?_, ?_⟩
  · simp [lastThrownClass, throwPdfiumException, jniThrowException, FPDF_ERR_UNKNOWN]
  · simp [lastThrownClass, throwPdfiumException, jniThrowException, FPDF_ERR_UNKNOWN,
      FPDF_ERR_FILE]
  · simp [lastThrownClass, throwPdfiumException, jniThrowException, FPDF_ERR_UNKNOWN,
      FPDF_ERR_FILE, FPDF_ERR_FORMAT]
  · simp [lastThrownClass, throwPdfiumException, jniThrowException, FPDF_ERR_UNKNOWN,
      FPDF_ERR_FILE, FPDF_ERR_FORMAT, FPDF_ERR_PASSWORD]
  · simp [lastThrownClass, throwPdfiumException, jniThrowException, FPDF_ERR_UNKNOWN,
      FPDF_ERR_FILE, FPDF_ERR_FORMAT, FPDF_ERR_PASSWORD, FPDF_ERR_SECURITY]
  · simp [lastThrownClass, throwPdfiumException, jniThrowException, FPDF_ERR_UNKNOWN,
      FPDF_ERR_FILE, FPDF_ERR_FORMAT, FPDF_ERR_PASSWORD, FPDF_ERR_SECURITY, FPDF_ERR_PAGE]
  · simp [throwPdfiumException, jniThrowException, FPDF_ERR_UNKNOWN,
      FPDF_ERR_FILE, FPDF_ERR_FORMAT, FPDF_ERR_PASSWORD, FPDF_ERR_SECURITY, FPDF_ERR_PAGE]
  · simp [lastThrownClass, throwPdfiumException, jniThrowException, FPDF_ERR_UNKNOWN,
      FPDF_ERR_FILE, FPDF_ERR_FORMAT, FPDF_ERR_PASSWORD, FPDF_ERR_SECURITY, FPDF_ERR_PAGE,
      h1, h2, h3, h4, h5, h6, h7]
  · intro errorNum
    obtain ⟨t, ht⟩ := throwPdfiumException_thrown errorNum w
    rw [ht]
    simp

/-- Witness of the amended C16 at process start, with `0` as the other code. -/
theorem C16_error_classifier_witness :
    lastThrownClass (throwPdfiumException 7 World.initial) =
      some "com/harissk/pdfium/exception/FileNotFoundException" ∧
    lastThrownClass (throwPdfiumException 0 World.initial) =
      some "com/harissk/pdfium/exception/UnknownException" := by
  have h := C16_error_classifier World.initial 0 (Or.inl (by decide))
  refine ⟨?_, h.2.2.2.2.2.2.2.1⟩
  rw [lastThrownClass, h.2.2.2.2.2.2.1]
  rfl

/-- C17, as stated, fails: with a rectangle of three components on a page
that loads, the operation returns `-1` and no exception is raised, so no
InvalidBounds error reaches the caller. -/
theorem C17_invalid_bounds_counterexample :
    ( nativeAddTextAnnotation onePageEngine (some { pdfDocument := 5 }) 0 [65] [1, 2, 3, 4]
      [10, 20, 30] World.initial).1 = -1 ∧
    ( nativeAddTextAnnotation onePageEngine (some { pdfDocument := 5 }) 0 [65] [1, 2, 3, 4]
      [10, 20, 30] World.initial).2.thrown = [] := by
  constructor <;> rfl

/-- C17, amended. Annotation rectangle arity: when the rect array does not
have exactly four components, `nativeAddTextAnnotation` returns the failure
value `-1`, raises nothing beyond what the initial page load raised (nothing at
all when the page loaded), and performs no engine mutation: among the engine
calls it adds there is no annotation creation, no property setting and no
save. -/
theorem C17_invalid_bounds_no_mutation (E : Engine) (docPtr : Option DocumentFile)
    (page_index : Int) (text_ : List Nat) (color_ bound_ : List Int) (w : World)
    (hlen : bound_.length ≠ 4) :
    ( nativeAddTextAnnotation E docPtr page_index text_ color_ bound_ w).1 = -1 ∧
    ( nativeAddTextAnnotation E docPtr page_index text_ color_ bound_ w).2.thrown =
      (loadPageInternal E docPtr page_index w).2.thrown ∧
    ((loadPageInternal E docPtr page_index w).1 ≠ -1 →
      ( nativeAddTextAnnotation E docPtr page_index text_ color_ bound_ w).2.thrown =
        w.thrown) ∧
    ∃ newCalls,
      ( nativeAddTextAnnotation E docPtr page_index text_ color_ bound_ w).2.calls =
        w.calls ++ newCalls ∧
      ∀ c ∈ newCalls, isMutation c = false := by
  rw [nativeAddTextAnnotation_bad_bounds E docPtr page_index text_ color_ bound_ w hlen]
  refine ⟨rfl, rfl, ?_, loadPageInternal_calls E docPtr page_index w⟩
  intro hok
  have hthrown := loadPageInternal_thrown E docPtr page_index w
  simp only [List.count_cons, List.count_nil] at hthrown
  simpa [hok] using hthrown

/-- Witness of the amended C17: a rectangle of three components on the
one-page document. -/
theorem C17_invalid_bounds_no_mutation_witness :
    ∃ newCalls,
      ( nativeAddTextAnnotation onePageEngine (some { pdfDocument := 5 }) 0 [65] [1, 2, 3, 4]
        [10, 20, 30] World.initial).2.calls = World.initial.calls ++ newCalls ∧
      ∀ c ∈ newCalls, isMutation c = false :=
  (C17_invalid_bounds_no_mutation onePageEngine (some { pdfDocument := 5 }) 0 [65] [1, 2, 3, 4]
    [10, 20, 30] World.initial (by decide)).2.2.2

/-- C18. Annotation protocol order: when the page loads, the rect has four
components, the save succeeds and the reload succeeds, the calls added to the
trace are exactly, in this order: load page by index, create text annotation,
set rectangle, set colour, set the `Contents` string (the transcoded text),
incremental save, close the original page handle, reload the page by the same
index, notify the caller with the page index and the reloaded page handle; the
created annotation handle is returned and nothing is raised.  The colour is
the supplied components (as `unsigned int`) when the colour array has four
components and `51, 102, 153, 204` otherwise. -/
theorem C18_annotation_protocol_order (E : Engine) (doc : DocumentFile) (page_index : Int)
    (text_ : List Nat) (color_ : List Int) (left top right bottom : Int) (w : World)
    (page annot reloaded : Nat) (hdoc : doc.pdfDocument ≠ 0)
    (hload : E.FPDF_LoadPage w.calls doc.pdfDocument page_index = page) (hpage : page ≠ 0)
    (hannot : E.FPDFPage_CreateAnnot page FPDF_ANNOT_TEXT = annot)
    (hsave : E.FPDF_SaveAsCopy doc.pdfDocument FPDF_INCREMENTAL = true)
    (hreload : E.FPDF_LoadPage
      (w.calls ++ protocolCallsBeforeReload doc.pdfDocument page_index page annot left top
        right bottom (annotationColour color_) text_) doc.pdfDocument page_index = reloaded)
    (hreloaded : reloaded ≠ 0) :
    nativeAddTextAnnotation E (some doc) page_index text_ color_ [left, top, right, bottom] w =
      ((annot : Int),
        { w with
          calls := w.calls ++
            [EngineCall.FPDF_LoadPage doc.pdfDocument page_index,
              EngineCall.FPDFPage_CreateAnnot page FPDF_ANNOT_TEXT,
              EngineCall.FPDFAnnot_SetRect annot left top right bottom,
              EngineCall.FPDFAnnot_SetColor annot FPDFANNOT_COLORTYPE_Color
                (annotationColour color_).1 (annotationColour color_).2.1
                (annotationColour color_).2.2.1 (annotationColour color_).2.2.2,
              EngineCall.FPDFAnnot_SetStringValue annot kContentsKey (convertWideString text_),
              EngineCall.FPDF_SaveAsCopy doc.pdfDocument FPDF_INCREMENTAL,
              EngineCall.FPDF_ClosePage page,
              EngineCall.FPDF_LoadPage doc.pdfDocument page_index,
              EngineCall.onAnnotationAdded page_index reloaded] }) ∧
    (∀ c0 c1 c2 c3, color_ = [c0, c1, c2, c3] →
      annotationColour color_ =
        ((c0 % 4294967296).toNat, (c1 % 4294967296).toNat, (c2 % 4294967296).toNat,
          (c3 % 4294967296).toNat)) ∧
    (color_.length ≠ 4 → annotationColour color_ = (51, 102, 153, 204)) := by
  refine ⟨?_, ?_, ?_⟩
  · have hload0 : E.FPDF_LoadPage w.calls doc.pdfDocument page_index ≠ 0 := by
      rw [hload]; exact hpage
    rw [nativeAddTextAnnotation_saved E doc page_index text_ color_ left top right bottom w
      hdoc hload0 hsave]
    rw [hload, hannot, hreload, if_neg hreloaded]
    simp [protocolCallsBeforeReload]
  · intro c0 c1 c2 c3 hc
    subst hc
    rfl
  · intro hlen
    rcases color_ with _ | ⟨c0, _ | ⟨c1, _ | ⟨c2, _ | ⟨c3, _ | ⟨c4, rest⟩⟩⟩⟩⟩
    · rfl
    · rfl
    · rfl
    · rfl
    · simp at hlen
    · rfl

/-- Witness of C18 on the one-page document, with a two-unit text, the colour
(1, 2, 3, 4) and the rectangle (10, 20, 30, 40). -/
theorem C18_annotation_protocol_order_witness :
    nativeAddTextAnnotation onePageEngine (some { pdfDocument := 5 }) 0 [65, 66] [1, 2, 3, 4]
        [10, 20, 30, 40] World.initial =
      (9,
        { World.initial with
          calls :=
            [EngineCall.FPDF_LoadPage 5 0,
              EngineCall.FPDFPage_CreateAnnot 77 1,
              EngineCall.FPDFAnnot_SetRect 9 10 20 30 40,
              EngineCall.FPDFAnnot_SetColor 9 0 1 2 3 4,
              EngineCall.FPDFAnnot_SetStringValue 9 "Contents" [65, 0, 66, 0, 0, 0],
              EngineCall.FPDF_SaveAsCopy 5 1,
              EngineCall.FPDF_ClosePage 77,
              EngineCall.FPDF_LoadPage 5 0,
              EngineCall.onAnnotationAdded 0 77] }) :=
  (C18_annotation_protocol_order onePageEngine { pdfDocument := 5 } 0 [65, 66] [1, 2, 3, 4]
    10 20 30 40 World.initial 77 9 77 (by decide) rfl (by decide) rfl rfl rfl (by decide)).1

/-- C19, as stated, fails: when the save fails the operation returns `-1` with
no exception raised (no PersistFailed error), and when the reload fails the
only exception raised is the `UnknownException` of the page load (no
ReloadFailed error). -/
theorem C19_failure_kinds_counterexample :
    nativeAddTextAnnotation saveFailingEngine (some { pdfDocument := 5 }) 0 [65] []
        [10, 20, 30, 40] World.initial =
      (-1,
        { World.initial with
          calls :=
            [EngineCall.FPDF_LoadPage 5 0,
              EngineCall.FPDFPage_CreateAnnot 77 1,
              EngineCall.FPDFAnnot_SetRect 9 10 20 30 40,
              EngineCall.FPDFAnnot_SetColor 9 0 51 102 153 204,
              EngineCall.FPDFAnnot_SetStringValue 9 "Contents" [65, 0, 0, 0],
              EngineCall.FPDF_SaveAsCopy 5 1],
          thrown := [] }) ∧
    ( nativeAddTextAnnotation reloadFailingEngine (some { pdfDocument := 5 }) 0 [65] []
        [10, 20, 30, 40] World.initial).2.thrown =
      [{ className := "com/harissk/pdfium/exception/UnknownException",
         message := "cannot load page" }] := by
  constructor <;> rfl

/-- C19, amended. Annotation failure kinds: on a page that loads, with a rect
of four components, when the incremental save fails the operation returns
`-1` and raises no exception; when the save succeeds but the page reload
fails it returns `-1` and the only exception raised is the `UnknownException`
("cannot load page") of the reload; in neither case is the caller
notification among the calls the operation adds. -/
theorem C19_failure_kinds (E : Engine) (doc : DocumentFile) (page_index : Int)
    (text_ : List Nat) (color_ : List Int) (left top right bottom : Int) (w : World)
    (hdoc : doc.pdfDocument ≠ 0)
    (hload : E.FPDF_LoadPage w.calls doc.pdfDocument page_index ≠ 0) :
    (E.FPDF_SaveAsCopy doc.pdfDocument FPDF_INCREMENTAL = false →
      ( nativeAddTextAnnotation E (some doc) page_index text_ color_
        [left, top, right, bottom] w).1 = -1 ∧
      ( nativeAddTextAnnotation E (some doc) page_index text_ color_
        [left, top, right, bottom] w).2.thrown = w.thrown ∧
      ∃ newCalls,
        ( nativeAddTextAnnotation E (some doc) page_index text_ color_
          [left, top, right, bottom] w).2.calls = w.calls ++ newCalls ∧
        ∀ c ∈ newCalls, isNotification c = false) ∧
    (E.FPDF_SaveAsCopy doc.pdfDocument FPDF_INCREMENTAL = true →
      E.FPDF_LoadPage
        (w.calls ++ protocolCallsBeforeReload doc.pdfDocument page_index
          (E.FPDF_LoadPage w.calls doc.pdfDocument page_index)
          (E.FPDFPage_CreateAnnot (E.FPDF_LoadPage w.calls doc.pdfDocument page_index)
            FPDF_ANNOT_TEXT)
          left top right bottom (annotationColour color_) text_)
        doc.pdfDocument page_index = 0 →
      ( nativeAddTextAnnotation E (some doc) page_index text_ color_
        [left, top, right, bottom] w).1 = -1 ∧
      ( nativeAddTextAnnotation E (some doc) page_index text_ color_
        [left, top, right, bottom] w).2.thrown = w.thrown ++ [cannotLoadPage] ∧
      ∃ newCalls,
        ( nativeAddTextAnnotation E (some doc) page_index text_ color_
          [left, top, right, bottom] w).2.calls = w.calls ++ newCalls ∧
        ∀ c ∈ newCalls, isNotification c = false) := by
  constructor
  · intro hsave
    rw [nativeAddTextAnnotation_save_fails E doc page_index text_ color_ left top right bottom w
      hdoc hload hsave]
    refine ⟨rfl, rfl, _, rfl, ?_⟩
    intro c hc
    simp [protocolCallsBeforeReload] at hc
    rcases hc with h | h | h | h | h | h <;> subst h <;> rfl
  · intro hsave hreload
    rw [nativeAddTextAnnotation_saved E doc page_index text_ color_ left top right bottom w
      hdoc hload hsave, if_pos hreload]
    refine ⟨rfl, rfl, _, List.append_assoc _ _ _, ?_⟩
    intro c hc
    simp [protocolCallsBeforeReload] at hc
    rcases hc with h | h | h | h | h | h | h | h <;> subst h <;> rfl

/-- Witness of the amended C19: the save failure on the one-page document. -/
theorem C19_failure_kinds_witness :
    ( nativeAddTextAnnotation saveFailingEngine (some { pdfDocument := 5 }) 0 [65] []
      [10, 20, 30, 40] World.initial).1 = -1 ∧
    ( nativeAddTextAnnotation saveFailingEngine (some { pdfDocument := 5 }) 0 [65] []
      [10, 20, 30, 40] World.initial).2.thrown = World.initial.thrown ∧
    ∃ newCalls,
      ( nativeAddTextAnnotation saveFailingEngine (some { pdfDocument := 5 }) 0 [65] []
        [10, 20, 30, 40] World.initial).2.calls = World.initial.calls ++ newCalls ∧
      ∀ c ∈ newCalls, isNotification c = false :=
  (C19_failure_kinds saveFailingEngine { pdfDocument := 5 } 0 [65] [] 10 20 30 40
    World.initial (by decide) (by decide)).1 rfl

/-- C20, evaluated where it fails: with a rectangle of three components, and
likewise when the save fails, page `77` has been loaded by the operation and
the operation returns with the page neither closed nor handed to the caller. -/
theorem C20_page_left_open_on_early_exit :
    ( nativeAddTextAnnotation onePageEngine (some { pdfDocument := 5 }) 0 [65] [1, 2, 3, 4]
      [10, 20, 30] World.initial).2.calls = [EngineCall.FPDF_LoadPage 5 0] ∧
    ( nativeAddTextAnnotation saveFailingEngine (some { pdfDocument := 5 }) 0 [65] [1, 2, 3, 4]
      [10, 20, 30, 40] World.initial).2.calls =
      [EngineCall.FPDF_LoadPage 5 0,
        EngineCall.FPDFPage_CreateAnnot 77 1,
        EngineCall.FPDFAnnot_SetRect 9 10 20 30 40,
        EngineCall.FPDFAnnot_SetColor 9 0 1 2 3 4,
        EngineCall.FPDFAnnot_SetStringValue 9 "Contents" [65, 0, 0, 0],
        EngineCall.FPDF_SaveAsCopy 5 1] ∧
    onePageEngine.FPDF_LoadPage [] 5 0 = 77 := by
  refine ⟨?_, ?_, ?_⟩ <;> rfl

/-- C21. Query transcoding: for a string of `n` UTF-16 code units (each below
`65536`), `convertWideString` produces exactly `2 * (n + 1)` bytes; for every
`i < n`, bytes `2 * i` and `2 * i + 1` are the low and the high byte of code
unit `i` (together they give the unit back, little-endian); the last two bytes
are zero.  `nativeSearchStart` hands exactly this buffer to the engine's
search start. -/
theorem C21_convertWideString_layout (query : List Nat) (hunits : ∀ u ∈ query, u < 65536) :
    (convertWideString query).length = 2 * (query.length + 1) ∧
    (∀ i u, query[i]? = some u →
      (convertWideString query)[2 * i]? = some (u % 256) ∧
      (convertWideString query)[2 * i + 1]? = some (u / 256) ∧
      u % 256 + 256 * (u / 256) = u ∧ u / 256 < 256) ∧
    (convertWideString query)[2 * query.length]? = some 0 ∧
    (convertWideString query)[2 * query.length + 1]? = some 0 ∧
    (∀ search textPagePtr matchCase matchWholeWord w,
      ∃ flags, (nativeSearchStart search textPagePtr query matchCase matchWholeWord w).2.calls =
        w.calls ++ [EngineCall.FPDFText_FindStart textPagePtr (convertWideString query)
          flags 0]) := by
  have hlen := convertWideStringLoop_length query
  refine ⟨?_, ?_, ?_, ?_, ?_⟩
  · simp only [convertWideString, List.length_append, hlen, List.length_cons, List.length_nil]
    omega
  · intro i u hi
    have hmem : u ∈ query := List.getElem?_mem hi
    have hu := hunits u hmem
    obtain ⟨h1, h2⟩ := convertWideStringLoop_unit query i u hi
    obtain ⟨hilt, _⟩ := List.getElem?_eq_some_iff.mp hi
    refine ⟨?_, ?_, by omega, by omega⟩
    · unfold convertWideString
      rw [List.getElem?_append_left (by omega), h1, lowByte_eq]
    · unfold convertWideString
      rw [List.getElem?_append_left (by omega), h2, highByte_eq u hu]
  · unfold convertWideString
    rw [List.getElem?_append_right (by omega), hlen]
    simp
  · unfold convertWideString
    rw [List.getElem?_append_right (by omega), hlen]
    simp
  · intro search textPagePtr matchCase matchWholeWord w
    exact ⟨_, rfl⟩

/-- Witness of C21: the two code units `0x0041`, `0x1234` give the six bytes
`41 00 34 12 00 00`. -/
theorem C21_convertWideString_layout_witness :
    convertWideString [0x0041, 0x1234] = [0x41, 0x00, 0x34, 0x12, 0, 0] ∧
    (convertWideString [0x0041, 0x1234]).length = 2 * ([0x0041, 0x1234].length + 1) ∧
    (convertWideString [0x0041, 0x1234])[2 * [0x0041, 0x1234].length]? = some 0 := by
  have h := C21_convertWideString_layout [0x0041, 0x1234] (by decide)
  exact ⟨by decide, h.1, h.2.2.1⟩

/-- C22. Batch close does not filter: for every array of values,
`nativeClosePages` calls the engine's close-page exactly once per element, in
array order, skipping none; so when the array holds the failure value `-1`, as
a `nativeLoadPages` result with a failed slot does, `-1` is passed to the
engine's close-page like a page handle. -/
theorem C22_closePages_does_not_filter (pages : List Int) (w : World) :
    (nativeClosePages pages w).calls = w.calls ++ pages.map EngineCall.FPDF_ClosePage ∧
    (-1 ∈ pages → EngineCall.FPDF_ClosePage (-1) ∈ (nativeClosePages pages w).calls) ∧
    (∀ stackSlots E doc fromIndex toIndex w0 w1,
      nativeLoadPages stackSlots E doc fromIndex toIndex w0 = some (some pages, w1) →
      w1.thrown ≠ w0.thrown →
      EngineCall.FPDF_ClosePage (-1) ∈ (nativeClosePages pages w).calls) := by
  have hcalls := nativeClosePages_calls pages w
  have hmem : -1 ∈ pages → EngineCall.FPDF_ClosePage (-1) ∈ (nativeClosePages pages w).calls := by
    intro h
    rw [hcalls]
    exact List.mem_append_right _ (List.mem_map_of_mem _ h)
  refine ⟨hcalls, hmem, ?_⟩
  intro stackSlots E doc fromIndex toIndex w0 w1 hpages hthrown
  apply hmem
  obtain ⟨n, hn⟩ := nativeLoadPages_some stackSlots E doc fromIndex toIndex w0 w1 pages hpages
  have hth := loadPagesLoop_thrown E doc fromIndex w0 n
  rw [hn] at hth
  simp only at hth
  rw [hth] at hthrown
  by_contra hnot
  rw [List.count_eq_zero_of_not_mem hnot] at hthrown
  simp at hthrown

/-- Witness of C22: the result `[77, -1]` of loading the range `[0, 1]` of a
one-page document is closed by the calls `FPDF_ClosePage 77`,
`FPDF_ClosePage (-1)`. -/
theorem C22_closePages_does_not_filter_witness :
    (nativeLoadPages 1024 onePageEngine (some { pdfDocument := 5 }) 0 1 World.initial).map
      Prod.fst = some (some [77, -1]) ∧
    (nativeClosePages [77, -1] World.initial).calls =
      [EngineCall.FPDF_ClosePage 77, EngineCall.FPDF_ClosePage (-1)] ∧
    EngineCall.FPDF_ClosePage (-1) ∈ (nativeClosePages [77, -1] World.initial).calls := by
  have h := C22_closePages_does_not_filter [77, -1] World.initial
  refine ⟨by decide, h.1, ?_⟩
  exact h.2.2 1024 onePageEngine (some { pdfDocument := 5 }) 0 1 World.initial
    { World.initial with
      calls := [EngineCall.FPDF_LoadPage 5 0, EngineCall.FPDF_LoadPage 5 1],
      thrown := [cannotLoadPage] }
    (by decide) (by decide)

end PdfiumJni
